import Mathlib

/-!
Shallow embedding of the Phaser play-mode runtime (`GameScene` in
`src/services/project/ImportService.ts`): scene construction
(`createGameObject`), the pairwise collision builder (`setupCollisions`),
the per-tick `update` (gravity-zone force field, fixed re-pin, controls),
together with proofs of the specification claims about them.

Numbers authored in the scene description are rationals; runtime sprite
positions, velocities and accelerations are real numbers (the source runs
on JS doubles; we use the exact-arithmetic idealisation).
-/

namespace PhaserGame

/-- Object types of the scene description (`GameObject.type`). -/
inductive ObjType where
  | player | platform | collectible | enemy | controller | boundary | gravity | sprite
deriving DecidableEq, Repr

/-- Behavior types (`GameBehavior.type`). -/
inductive BehaviorType where
  | physics | controls | camera | oblique | fixed | gravity
deriving DecidableEq, Repr

/-- Behavior parameter bag.  In the source this is an open JS object; we model
every field the runtime reads.  Fields whose `undefined`-ness the code
distinguishes (`allowVerticalMovement !== false`, `strength || ...`,
`maxDistance || ...`, `gravityScale || 0`) are `Option`-typed; the rest carry
the value the runtime would read (a JS number, boolean or string). -/
structure Params where
  enabled : Bool := false
  mass : ℚ := 1
  gravityScale : Option ℚ := none
  bounce : ℚ := 0
  friction : ℚ := 0
  moveSpeed : ℚ := 0
  allowVerticalMovement : Option Bool := none
  jumpPower : ℚ := 0
  canDoubleJump : Bool := false
  isStatic : Bool := false
  padding : ℚ := 0
  collisionGroup : String := ""
  onlyCollideWithOblique : Bool := false
  strength : Option ℚ := none
  maxDistance : Option ℚ := none
  screenX : ℚ := 0
  screenY : ℚ := 0
deriving DecidableEq, Repr

/-- A behavior attached to a scene object (`GameBehavior`). -/
structure GameBehavior where
  type : BehaviorType
  params : Params
deriving DecidableEq, Repr

/-- A scene-description object (`GameObject`): id, type, authored position and
scale, the `properties.gravityStrength` entry (absent = `undefined`), and the
ordered behavior list. -/
structure GameObject where
  id : String
  type : ObjType
  x : ℚ
  y : ℚ
  scaleX : ℚ := 1
  scaleY : ℚ := 1
  gravityStrength : Option ℚ := none
  behaviors : List GameBehavior := []
deriving DecidableEq, Repr

/-- JS `a || b` on a possibly-`undefined` number: `undefined` and `0` are falsy
and fall through to the default. -/
def jsOrQ (a : Option ℚ) (b : ℚ) : ℚ :=
  match a with
  | none => b
  | some v => if v = 0 then b else v

/-- Arcade physics body state.  Field defaults are the Phaser Arcade `Body`
defaults (mass 1, bounce 0, friction (1,0), gravity 0, movable, gravity
enabled, no world-bounds collision). -/
structure Body where
  velX : ℝ := 0
  velY : ℝ := 0
  accX : ℝ := 0
  accY : ℝ := 0
  gravityY : ℝ := 0
  mass : ℝ := 1
  bounceX : ℝ := 0
  bounceY : ℝ := 0
  frictionX : ℝ := 1
  frictionY : ℝ := 0
  immovable : Bool := false
  allowGravity : Bool := true
  collideWorldBounds : Bool := false
  touchingDown : Bool := false
  blockedDown : Bool := false
  enable : Bool := true

/-- A live sprite: the `objectData` back-reference, current position, render
state, the `getData` flags written by `createGameObject`
(`hasOblique`/`obliqueGroup`/`onlyCollideWithOblique`/`isFixed`/`fixedX/Y`,
all `undefined`, i.e. falsy, until set), and its Arcade body
(`this.physics.add.sprite` always attaches a body, so every sprite has one). -/
structure Sprite where
  obj : GameObject
  x : ℝ
  y : ℝ
  scaleX : ℚ := 1
  scaleY : ℚ := 1
  alpha : ℚ := 1
  scrollFactor : ℚ := 1
  depth : ℚ := 0
  hasOblique : Bool := false
  obliqueGroup : String := ""
  onlyCollideWithOblique : Bool := false
  isFixed : Bool := false
  fixedX : ℚ := 0
  fixedY : ℚ := 0
  body : Body := {}

/-- An entry of `this.gravityZones`: the zone sprite (by id — the source
stores a live reference, and sprite ids are the `objectSprites` keys), the
source `GameObject`, and the strength label's position. -/
structure GravityZoneRec where
  spriteId : String
  data : GameObject
  textX : ℝ
  textY : ℝ

/-- The scene's mutable collections: `objectSprites` (a JS `Map`, modelled as
an insertion-ordered association list), `gravityZones`, and
`controlledObjects` (object id paired with the controls parameters; the source
stores the sprite reference, which is the `objectSprites` entry of that id). -/
structure SceneState where
  objectSprites : List (String × Sprite) := []
  gravityZones : List GravityZoneRec := []
  controlledObjects : List (String × Params) := []

/-- JS `Map.set`: replace the entry with an existing key, else append. -/
def mapSet {α : Type} (m : List (String × α)) (k : String) (v : α) :
    List (String × α) :=
  if m.any (fun p => p.1 == k) then
    m.map (fun p => if p.1 == k then (k, v) else p)
  else m ++ [(k, v)]

/-- JS `Map.get`: first entry with the key. -/
def mapGet {α : Type} (m : List (String × α)) (k : String) : Option α :=
  (m.find? (fun p => p.1 == k)).map (fun p => p.2)

/-- `this.objectSprites.get(id)`. -/
def getSprite (st : SceneState) (i : String) : Option Sprite :=
  mapGet st.objectSprites i

/-- `this.physics.add.sprite(x, y, texture); setScale; setData`, plus the
boundary transparency (`setAlpha(0.3)`). -/
def mkSprite (obj : GameObject) : Sprite :=
  let sprite : Sprite := { obj := obj, x := (obj.x : ℝ), y := (obj.y : ℝ),
                           scaleX := obj.scaleX, scaleY := obj.scaleY }
  if obj.type = ObjType.boundary then { sprite with alpha := 0.3 } else sprite

/-- Gravity zones are semi-transparent, gravity-exempt and immovable. -/
def applyGravityZoneSetup (obj : GameObject) (sprite : Sprite) : Sprite :=
  if obj.type = ObjType.gravity then
    { sprite with
        alpha := 0.4
        body := { sprite.body with allowGravity := false, immovable := true } }
  else sprite

/-- Boundaries are always static and immovable; every other object runs the
Physics behavior branch: world-bounds collision, mass, gravity (forced to 0
unless a Controls behavior explicitly disables vertical movement — the read
is `controlsBehavior?.parameters?.allowVerticalMovement !== false`, with the
`enabled` flag of that Controls behavior never consulted), bounce and
friction. -/
def applyPhysicsSetup (obj : GameObject) (sprite : Sprite) : Sprite :=
  if obj.type = ObjType.boundary then
    { sprite with
        body := { sprite.body with
                    immovable := true
                    allowGravity := false
                    collideWorldBounds := false } }
  else
    match obj.behaviors.find? (fun b => b.type == BehaviorType.physics) with
    | none => sprite
    | some physicsBehavior =>
      if physicsBehavior.params.enabled then
        let controlsBehavior := obj.behaviors.find? (fun b => b.type == BehaviorType.controls)
        let hasVerticalMovement : Bool :=
          !((controlsBehavior.bind (fun b => b.params.allowVerticalMovement)) == some false)
        -- vertical movement enabled forces the gravity scale to 0
        let gravityScale : ℚ :=
          if hasVerticalMovement then 0 else jsOrQ physicsBehavior.params.gravityScale 0
        { sprite with
            body := { sprite.body with
                        collideWorldBounds := true
                        mass := (physicsBehavior.params.mass : ℝ)
                        gravityY := ((gravityScale * 300 : ℚ) : ℝ)
                        bounceX := (physicsBehavior.params.bounce : ℝ)
                        bounceY := (physicsBehavior.params.bounce : ℝ)
                        frictionX := (physicsBehavior.params.friction : ℝ)
                        frictionY := (physicsBehavior.params.friction : ℝ) } }
      else sprite

/-- Oblique behavior: static body and the collision-filter tags.  The
padding branch only shrinks the Arcade body rectangle
(`setSize`/`setOffset`); the body rectangle geometry is not part of any
claim and is not modelled. -/
def applyObliqueSetup (obj : GameObject) (sprite : Sprite) : Sprite :=
  match obj.behaviors.find? (fun b => b.type == BehaviorType.oblique) with
  | none => sprite
  | some obliqueBehavior =>
    if obliqueBehavior.params.enabled then
      let sprite :=
        if obliqueBehavior.params.isStatic then
          { sprite with body := { sprite.body with immovable := true, allowGravity := false } }
        else sprite
      { sprite with
          hasOblique := true
          obliqueGroup := obliqueBehavior.params.collisionGroup
          onlyCollideWithOblique := obliqueBehavior.params.onlyCollideWithOblique }
    else sprite

/-- Fixed behavior: detach from camera scroll, pin to the configured screen
coordinates, render on top, and store the `isFixed`/`fixedX`/`fixedY` data. -/
def applyFixedSetup (obj : GameObject) (sprite : Sprite) : Sprite :=
  match obj.behaviors.find? (fun b => b.type == BehaviorType.fixed) with
  | none => sprite
  | some fixedBehavior =>
    if fixedBehavior.params.enabled then
      { sprite with
          scrollFactor := 0
          depth := 1000
          x := (fixedBehavior.params.screenX : ℝ)
          y := (fixedBehavior.params.screenY : ℝ)
          isFixed := true
          fixedX := fixedBehavior.params.screenX
          fixedY := fixedBehavior.params.screenY }
    else sprite

/-- The sprite built by `createGameObject` for a non-controller object: the
sequence of in-place mutations the source applies to the freshly created
sprite, in source order (creation and boundary alpha, gravity-zone setup,
boundary/physics branch, oblique branch, fixed branch). -/
def builtSprite (obj : GameObject) : Sprite :=
  applyFixedSetup obj (applyObliqueSetup obj (applyPhysicsSetup obj
    (applyGravityZoneSetup obj (mkSprite obj))))

/-- `createGameObject`: controller objects build the on-screen d-pad widget
instead of a simulated sprite; every other object registers its (fully
mutated) sprite in `objectSprites`, gravity-type objects push a
`gravityZones` record (the label text is created at the sprite's position
before the fixed branch can move it, i.e. at the authored position), and an
enabled Controls behavior registers the object in `controlledObjects`. -/
def createGameObject (st : SceneState) (obj : GameObject) : SceneState :=
  if obj.type = ObjType.controller then st
  else
    let sprite := builtSprite obj
    let controlsBehavior := obj.behaviors.find? (fun b => b.type == BehaviorType.controls)
    { st with
        objectSprites := mapSet st.objectSprites obj.id sprite
        gravityZones :=
          if obj.type = ObjType.gravity then
            st.gravityZones ++ [⟨obj.id, obj, (obj.x : ℝ), (obj.y : ℝ)⟩]
          else st.gravityZones
        controlledObjects :=
          match controlsBehavior with
          | some cb =>
            if cb.params.enabled then mapSet st.controlledObjects obj.id cb.params
            else st.controlledObjects
          | none => st.controlledObjects }

/-- `create()`: build every object of the scene description in order. -/
def buildScene (objects : List GameObject) : SceneState :=
  objects.foldl createGameObject {}

/-- The pair filter of `setupCollisions`: whether a collider is created
between two sprites.  Direct transcription of the source's mutable
`shouldCollide` flag (reads of unset `getData` keys are falsy). -/
def shouldCollide (sprite1 sprite2 : Sprite) : Bool :=
  let sc0 := true
  if sprite1.hasOblique || sprite2.hasOblique then
    -- sprite1 only collides with oblique and sprite2 does not have it
    let sc1 := if sprite1.onlyCollideWithOblique && !sprite2.hasOblique then false else sc0
    -- sprite2 only collides with oblique and sprite1 does not have it
    let sc2 := if sprite2.onlyCollideWithOblique && !sprite1.hasOblique then false else sc1
    -- both have oblique: same group = collide, different group = pass through
    if sprite1.hasOblique && sprite2.hasOblique && sc2 then
      if sprite1.obliqueGroup != sprite2.obliqueGroup then false else sc2
    else sc2
  else sc0

/-- The unordered pairs `setupCollisions` creates a collider for, in its
`forEach`/`slice(i+1)` iteration order.  The source first filters on
`s.body`, which retains every sprite because `physics.add.sprite` always
attaches a body. -/
def colliderPairs : List Sprite → List (Sprite × Sprite)
  | [] => []
  | s :: rest =>
    (rest.filter (fun t => shouldCollide s t)).map (fun t => (s, t)) ++ colliderPairs rest

/-- Collider pairs of a scene, by object id. -/
def colliderIdPairs (st : SceneState) : List (String × String) :=
  (colliderPairs (st.objectSprites.map (fun p => p.2))).map
    (fun p => (p.1.obj.id, p.2.obj.id))

/-! ## The per-tick `update()` -/

/-- One tick's input sample: `isDown` of the cursor keys, the WASD+Space
keys, the virtual-controller press state, and the edge flag
`Phaser.Input.Keyboard.JustDown(cursors.up)` (the double-jump code computes
`jumpKey = cursors?.up || wasdKeys?.up || wasdKeys?.space`, and since the
JS `||` returns the first non-null Key object this is always `cursors.up`
when the keyboard plugin exists). -/
structure InputTick where
  cursorsLeft : Bool := false
  cursorsRight : Bool := false
  cursorsUp : Bool := false
  cursorsDown : Bool := false
  wasdLeft : Bool := false
  wasdRight : Bool := false
  wasdUp : Bool := false
  wasdDown : Bool := false
  wasdSpace : Bool := false
  vcLeft : Bool := false
  vcRight : Bool := false
  vcUp : Bool := false
  vcDown : Bool := false
  vcJump : Bool := false
  cursorsUpJustDown : Bool := false

/-- Phaser's `JustDown` over a key-down history: true exactly on the first
tick the key is observed down (edge-triggered "just pressed"). -/
def justDownAt (keyDown : ℕ → Bool) : ℕ → Bool
  | 0 => keyDown 0
  | n + 1 => keyDown (n + 1) && !keyDown n

/-- The effective strength of a gravity zone: the zone's
`properties.gravityStrength` (default 500) unless an enabled Gravity
behavior overrides it (`strength || gravityStrength`). -/
def zoneStrength (data : GameObject) : ℚ :=
  let gravityStrength := data.gravityStrength.getD 500
  match data.behaviors.find? (fun b => b.type == BehaviorType.gravity) with
  | some gb =>
    if gb.params.enabled then jsOrQ gb.params.strength gravityStrength else gravityStrength
  | none => gravityStrength

/-- The effective max pull distance of a gravity zone: 800 unless an enabled
Gravity behavior overrides it (`maxDistance || 800`). -/
def zoneMaxDistance (data : GameObject) : ℚ :=
  match data.behaviors.find? (fun b => b.type == BehaviorType.gravity) with
  | some gb => if gb.params.enabled then jsOrQ gb.params.maxDistance 800 else 800
  | none => 800

/-- Euclidean distance of a sprite position `(x1, y1)` to a point
`(x2, y2)`, written as the source writes it: `sqrt(dx*dx + dy*dy)` with
`dx = x2 - x1`, `dy = y2 - y1`. -/
noncomputable def jsDist (x1 y1 x2 y2 : ℝ) : ℝ :=
  Real.sqrt ((x2 - x1) * (x2 - x1) + (y2 - y1) * (y2 - y1))

/-- `objData.behaviors?.some(b => b.type === 'fixed' && b.parameters.enabled)`. -/
def hasEnabledFixed (obj : GameObject) : Bool :=
  obj.behaviors.any (fun b => b.type == BehaviorType.fixed && b.params.enabled)

/-- The "Static Body enabled in Oblique behavior" check of `update()`. -/
def hasEnabledStaticOblique (obj : GameObject) : Bool :=
  match obj.behaviors.find? (fun b => b.type == BehaviorType.oblique) with
  | some ob => ob.params.enabled && ob.params.isStatic
  | none => false

/-- The "ONLY affect objects with Physics behavior enabled" check of
`update()`. -/
def hasEnabledPhysics (obj : GameObject) : Bool :=
  match obj.behaviors.find? (fun b => b.type == BehaviorType.physics) with
  | some pb => pb.params.enabled
  | none => false

/-- Eligibility of a force-field target: the early-return chain of the inner
`objectSprites.forEach` of `update()`.  `objData` is always set (written at
sprite creation), so the `!objData` escape never fires.  The conjuncts are,
in source order: not a gravity zone / boundary / controller / `isFixed`
sprite; no enabled Fixed behavior; no enabled Oblique behavior with
`isStatic`; an enabled Physics behavior; an enabled body. -/
def eligibleTarget (s : Sprite) : Bool :=
  let objData := s.obj
  !(objData.type == ObjType.gravity || objData.type == ObjType.boundary ||
    objData.type == ObjType.controller || s.isFixed) &&
  !(hasEnabledFixed objData) &&
  !(hasEnabledStaticOblique objData) &&
  hasEnabledPhysics objData &&
  s.body.enable

/-- The inner loop of the out-of-range branch: whether the sprite at
`(x, y)` is within `maxPullDistance` of ANY stored zone — note the source
compares every zone's distance against the CURRENT zone's
`maxPullDistance`, not each zone's own. -/
noncomputable def inRangeOfAny (st : SceneState) (x y : ℝ) (maxPullDistance : ℚ) : Bool :=
  st.gravityZones.any fun oz =>
    match getSprite st oz.spriteId with
    | some og => decide (jsDist x y og.x og.y < (maxPullDistance : ℝ))
    | none => false

/-- The per-sprite body of one gravity zone's `objectSprites.forEach`:
given the zone center `(cx, cy)`, its effective strength and max distance,
apply the inverse-square pull (or the out-of-range acceleration reset) to
one sprite.  `st` is the scene state the loop reads other sprites from. -/
noncomputable def applyZoneSprite (st : SceneState) (cx cy : ℝ) (S M : ℚ)
    (s : Sprite) : Sprite :=
  if !eligibleTarget s then s
  else
    let dx := cx - s.x
    let dy := cy - s.y
    -- distance = Math.sqrt(dx * dx + dy * dy); `jsDist` spells out exactly that
    let distance := jsDist s.x s.y cx cy
    if distance > 0 ∧ distance < (M : ℝ) then
      -- inverse square law: stronger when closer
      let pullStrength := (S : ℝ) / (distance * distance) * 10000
      let forceX := dx / distance * pullStrength
      let forceY := dy / distance * pullStrength
      { s with body := { s.body with accX := forceX, accY := forceY } }
    else if distance ≥ (M : ℝ) then
      if inRangeOfAny st s.x s.y M then s
      else { s with body := { s.body with accX := 0, accY := 0 } }
    else s

/-- One zone applied to one sprite, resolving the zone's live center sprite
and its effective strength/max distance from the state `st`. -/
noncomputable def spriteZoneStep (st : SceneState) (s : Sprite) (z : GravityZoneRec) : Sprite :=
  match getSprite st z.spriteId with
  | none => s
  | some gravitySprite =>
    applyZoneSprite st gravitySprite.x gravitySprite.y
      (zoneStrength z.data) (zoneMaxDistance z.data) s

/-- One iteration of the outer `gravityZones.forEach` of `update()`: apply
the zone to every sprite.  The source mutates sprite bodies in place while
iterating, but a zone's pass only writes accelerations and only reads
positions, types and behaviors, so mapping with the pass's entry state is
exact. -/
noncomputable def zoneStep (st : SceneState) (z : GravityZoneRec) : SceneState :=
  { st with objectSprites := st.objectSprites.map (fun p => (p.1, spriteZoneStep st p.2 z)) }

/-- Step 2 of `update()`: the whole force-field pass, zones in registration
order. -/
noncomputable def forceStep (st : SceneState) : SceneState :=
  st.gravityZones.foldl zoneStep st

/-- Step 1 of `update()`: reposition every zone's strength label onto its
zone sprite. -/
def labelStep (st : SceneState) : SceneState :=
  { st with
      gravityZones := st.gravityZones.map (fun z =>
        match getSprite st z.spriteId with
        | some s => { z with textX := s.x, textY := s.y }
        | none => z) }

/-- Step 3 of `update()`: re-pin every `isFixed` sprite to its stored screen
coordinates. -/
def fixedStep (st : SceneState) : SceneState :=
  { st with
      objectSprites := st.objectSprites.map (fun p => (p.1,
        if p.2.isFixed then { p.2 with x := (p.2.fixedX : ℝ), y := (p.2.fixedY : ℝ) }
        else p.2)) }

/-- The body of the `controlledObjects.forEach` of `update()` for one
controlled sprite: OR-combined keyboard/virtual input, horizontal velocity,
then either top-down vertical velocity (`allowVerticalMovement !== false`,
i.e. the mode defaults to top-down when the parameter is unset) or
platformer jumping with the keyboard-only edge-triggered double jump. -/
def applyControls (inp : InputTick) (params : Params) (s : Sprite) : Sprite :=
  let body := s.body
  let leftPressed := inp.cursorsLeft || inp.wasdLeft || inp.vcLeft
  let rightPressed := inp.cursorsRight || inp.wasdRight || inp.vcRight
  let upPressed := inp.cursorsUp || inp.wasdUp || inp.vcUp
  let downPressed := inp.cursorsDown || inp.wasdDown || inp.vcDown
  let jumpPressed := inp.wasdSpace || inp.vcJump
  -- horizontal movement
  let body :=
    if leftPressed then { body with velX := -(params.moveSpeed : ℝ) }
    else if rightPressed then { body with velX := (params.moveSpeed : ℝ) }
    else { body with velX := 0 }
  -- vertical: default to top-down when allowVerticalMovement is unspecified
  let allowVertical : Bool := !(params.allowVerticalMovement == some false)
  let body :=
    if allowVertical then
      if upPressed then { body with velY := -(params.moveSpeed : ℝ) }
      else if downPressed then { body with velY := (params.moveSpeed : ℝ) }
      else { body with velY := 0 }
    else
      let isOnGround := body.touchingDown || body.blockedDown
      let body :=
        if (upPressed || jumpPressed) && isOnGround then
          { body with velY := -(params.jumpPower : ℝ) }
        else body
      -- double jump: keyboard only (JustDown of cursors.up, see InputTick)
      if params.canDoubleJump && !isOnGround && inp.cursorsUpJustDown then
        { body with velY := -(params.jumpPower : ℝ) * 0.8 }
      else body
  { s with body := body }

/-- One controlled object's entry of the `controlledObjects.forEach`: look
up the sprite (the stored reference is the `objectSprites` entry; it is
always present because controller-type objects never register) and apply the
controls to it. -/
def controlStepOne (inp : InputTick) (acc : SceneState) (co : String × Params) : SceneState :=
  match getSprite acc co.1 with
  | none => acc
  | some s =>
    { acc with objectSprites := mapSet acc.objectSprites co.1 (applyControls inp co.2 s) }

/-- Step 4 of `update()`: apply the controls of every controlled object to
its sprite. -/
def controlsStep (inp : InputTick) (st : SceneState) : SceneState :=
  st.controlledObjects.foldl (controlStepOne inp) st

/-- `update()`: the fixed per-tick order — zone labels, force field, fixed
re-pin, controls. -/
noncomputable def update (inp : InputTick) (st : SceneState) : SceneState :=
  controlsStep inp (fixedStep (forceStep (labelStep st)))

/-! ## Proof-support definitions and concrete fixtures -/

/-- Modelled from the spec: the four-rule collision table of §4.3, written
the way the spec words it — neither tagged: collide; both tagged: collide
iff the groups are equal (case-sensitively); exactly one tagged: collide
iff the tagged side's `onlyCollideWithOblique` is false. -/
def specCollide (s1 s2 : Sprite) : Bool :=
  if !s1.hasOblique && !s2.hasOblique then true
  else if s1.hasOblique && s2.hasOblique then s1.obliqueGroup == s2.obliqueGroup
  else
    let tagged := if s1.hasOblique then s1 else s2
    !tagged.onlyCollideWithOblique

/-- Overwrite a sprite's body acceleration (the only field the force-field
pass writes). -/
def setAcc (s : Sprite) (a b : ℝ) : Sprite :=
  { s with body := { s.body with accX := a, accY := b } }

/-- Zero a sprite's acceleration; used to state that the force-field pass
changes nothing but accelerations. -/
def clearAcc (s : Sprite) : Sprite := setAcc s 0 0

/-- The acceleration-independent part of the sprite table. -/
def staticKeys (st : SceneState) : List (String × Sprite) :=
  st.objectSprites.map (fun p => (p.1, clearAcc p.2))

/-- An object with all its physics-typed behaviors removed (used to state
that a boundary's body ignores the Physics behavior entirely). -/
def removePhysicsBehaviors (obj : GameObject) : GameObject :=
  { obj with behaviors := obj.behaviors.filter (fun b => !(b.type == BehaviorType.physics)) }

/-! Concrete scene fixtures for counterexamples and witnesses. -/

/-- A plain platform with no behaviors at all. -/
def objPlainA : GameObject := { id := "a", type := ObjType.platform, x := 0, y := 0 }

/-- A second plain platform with no behaviors at all. -/
def objPlainB : GameObject := { id := "b", type := ObjType.platform, x := 100, y := 0 }

/-- A player with an enabled Physics behavior, authored `gravityScale` 2 and
no Controls behavior at all. -/
def objNoControls : GameObject :=
  { id := "a", type := ObjType.player, x := 0, y := 0,
    behaviors := [⟨BehaviorType.physics, { enabled := true, gravityScale := some 2 }⟩] }

/-- A player with an enabled Physics behavior (`gravityScale` 2) and an
enabled Controls behavior with `allowVerticalMovement` explicitly false. -/
def objPlatformer : GameObject :=
  { id := "a", type := ObjType.player, x := 0, y := 0,
    behaviors := [⟨BehaviorType.physics, { enabled := true, gravityScale := some 2 }⟩,
                  ⟨BehaviorType.controls,
                   { enabled := true, moveSpeed := 5, allowVerticalMovement := some false }⟩] }

/-- A boundary carrying an enabled Physics behavior with conspicuous
parameters (none of which may reach the body). -/
def objBoundaryPhys : GameObject :=
  { id := "w", type := ObjType.boundary, x := 0, y := 0,
    behaviors := [⟨BehaviorType.physics,
                  { enabled := true, mass := 7, bounce := 2, friction := 3,
                    gravityScale := some 5 }⟩] }

/-- A gravity zone at the origin with all defaults (strength 500, max
distance 800). -/
def objZoneDefault : GameObject := { id := "z", type := ObjType.gravity, x := 0, y := 0 }

/-- A gravity zone at (1000, 0) whose enabled Gravity behavior overrides
`maxDistance` to 100 (strength 500). -/
def objZoneSmall : GameObject :=
  { id := "z2", type := ObjType.gravity, x := 1000, y := 0,
    behaviors := [⟨BehaviorType.gravity,
                  { enabled := true, strength := some 500, maxDistance := some 100 }⟩] }

/-- An eligible force-field target (enabled Physics, nothing else) at (3, 4). -/
def objTargetNear : GameObject :=
  { id := "t", type := ObjType.player, x := 3, y := 4,
    behaviors := [⟨BehaviorType.physics, { enabled := true }⟩] }

/-- An eligible force-field target at (500, 0). -/
def objTargetMid : GameObject :=
  { id := "t", type := ObjType.player, x := 500, y := 0,
    behaviors := [⟨BehaviorType.physics, { enabled := true }⟩] }

/-- An eligible force-field target at (900, 0), out of range of
`objZoneDefault`. -/
def objTargetFar : GameObject :=
  { id := "t", type := ObjType.player, x := 900, y := 0,
    behaviors := [⟨BehaviorType.physics, { enabled := true }⟩] }

/-- A sprite with an enabled Fixed behavior pinning it to (40, 50). -/
def objFixed : GameObject :=
  { id := "f", type := ObjType.sprite, x := 7, y := 8,
    behaviors := [⟨BehaviorType.fixed, { enabled := true, screenX := 40, screenY := 50 }⟩] }

/-- The built scene with the default zone and the target at (3, 4)
(distance 5 from the zone center). -/
def sceneOneZoneNear : SceneState := buildScene [objZoneDefault, objTargetNear]

/-- The built scene with the default zone and the target at (900, 0)
(distance 900, outside the zone's 800 range). -/
def sceneOneZoneFar : SceneState := buildScene [objZoneDefault, objTargetFar]

/-- The built scene with both zones and a target at (500, 0): in range of the
default zone (500 < 800) and out of range of the small zone (500 ≥ 100). -/
def sceneTwoZones : SceneState := buildScene [objZoneDefault, objZoneSmall, objTargetMid]

/-- The `gravityZones` record registered for `objZoneDefault`. -/
def zoneRecDefault : GravityZoneRec := ⟨"z", objZoneDefault, ((0:ℚ):ℝ), ((0:ℚ):ℝ)⟩

/-- The `gravityZones` record registered for `objZoneSmall`. -/
def zoneRecSmall : GravityZoneRec := ⟨"z2", objZoneSmall, ((1000:ℚ):ℝ), ((0:ℚ):ℝ)⟩

/-- A gravity zone at (600, 0) with no Gravity behavior, whose
`properties.gravityStrength` is -300 (repulsion); its max distance is the
default 800, the same as `objZoneDefault`'s. -/
def objZoneRepel : GameObject :=
  { id := "z3", type := ObjType.gravity, x := 600, y := 0, gravityStrength := some (-300) }

/-- The built scene with two zones sharing the default max distance 800 and
a target at (500, 0) in range of both (distances 500 and 100). -/
def sceneTwoZonesSameM : SceneState := buildScene [objZoneDefault, objZoneRepel, objTargetMid]

/-- The `gravityZones` record registered for `objZoneRepel`. -/
def zoneRecRepel : GravityZoneRec := ⟨"z3", objZoneRepel, ((600:ℚ):ℝ), ((0:ℚ):ℝ)⟩

/-- The empty input sample: no key or virtual-controller press. -/
def inpNone : InputTick := {}

/-- Input sample: the up arrow is held (no edge). -/
def inpUp : InputTick := { cursorsUp := true }

/-- Input sample: the up arrow is freshly pressed (isDown with the JustDown
edge flag). -/
def inpUpEdge : InputTick := { cursorsUp := true, cursorsUpJustDown := true }

/-- Controls parameters that leave `allowVerticalMovement` unset. -/
def paramsTopDown : Params := { enabled := true, moveSpeed := 5 }

/-- The pinned sprite of `objFixed` as it stands after any `update()`:
screen-pinned at (40, 50). -/
def spriteFixedAfter : Sprite :=
  { obj := objFixed, x := ((40:ℚ):ℝ), y := ((50:ℚ):ℝ), scrollFactor := 0, depth := 1000,
    isFixed := true, fixedX := 40, fixedY := 50 }

/-- Key-down history for the double-jump counterexample: arrow-up is down at
ticks 0 and 2 and up at tick 1 (press, release, press again). -/
def pressTwiceHist (n : ℕ) : Bool := n == 0 || n == 2

/-- The tick-0 input sample of `pressTwiceHist` (fresh press). -/
def inpTick0 : InputTick where
  cursorsUp := pressTwiceHist 0
  cursorsUpJustDown := justDownAt pressTwiceHist 0

/-- The tick-2 input sample of `pressTwiceHist` (fresh press again). -/
def inpTick2 : InputTick where
  cursorsUp := pressTwiceHist 2
  cursorsUpJustDown := justDownAt pressTwiceHist 2

/-- Input sample: only the virtual-controller jump button is pressed. -/
def inpVJump : InputTick := { vcJump := true }

/-- Controls parameters of a platformer with double jump enabled. -/
def paramsDJ : Params :=
  { enabled := true, moveSpeed := 5, jumpPower := 10, canDoubleJump := true,
    allowVerticalMovement := some false }

/-- An airborne controlled sprite (both ground-contact flags false) with
vertical velocity 3. -/
def spriteAirA : Sprite :=
  { obj := objPlatformer, x := 0, y := 0, body := { velY := 3 } }

/-- An airborne controlled sprite with vertical velocity 7. -/
def spriteAirB : Sprite :=
  { obj := objPlatformer, x := 0, y := 0, body := { velY := 7 } }

/-! ## Theorems -/

/-! ### Force-field machinery: the state fold reduces to a per-sprite fold -/

lemma mapGet_map_val {α β : Type} (m : List (String × α)) (f : α → β) (k : String) :
    mapGet (m.map (fun p => (p.1, f p.2))) k = (mapGet m k).map f := by
  induction m with
  | nil => rfl
  | cons p m ih =>
    by_cases h : p.1 == k <;> simp [mapGet, List.find?_cons, h] at ih ⊢ <;> simpa [mapGet] using ih

lemma setAcc_setAcc (s : Sprite) (a b a' b' : ℝ) :
    setAcc (setAcc s a b) a' b' = setAcc s a' b' := rfl

lemma clearAcc_setAcc (s : Sprite) (a b : ℝ) : clearAcc (setAcc s a b) = clearAcc s := rfl

lemma applyZone_clearAcc (st : SceneState) (cx cy : ℝ) (S M : ℚ) (s : Sprite) :
    clearAcc (applyZoneSprite st cx cy S M s) = clearAcc s := by
  simp only [applyZoneSprite]
  split_ifs <;> rfl

lemma spriteZoneStep_clearAcc (st : SceneState) (s : Sprite) (z : GravityZoneRec) :
    clearAcc (spriteZoneStep st s z) = clearAcc s := by
  unfold spriteZoneStep
  split
  · rfl
  · exact applyZone_clearAcc ..

lemma foldZones_clearAcc (st : SceneState) (l : List GravityZoneRec) (s : Sprite) :
    clearAcc (l.foldl (spriteZoneStep st) s) = clearAcc s := by
  induction l generalizing s with
  | nil => rfl
  | cons z l ih => rw [List.foldl_cons, ih, spriteZoneStep_clearAcc]

lemma eligibleTarget_clearAcc (s : Sprite) : eligibleTarget (clearAcc s) = eligibleTarget s := rfl

lemma x_of_clearAcc_eq {s s' : Sprite} (h : clearAcc s = clearAcc s') : s.x = s'.x := by
  have h2 := congrArg Sprite.x h
  exact h2

lemma y_of_clearAcc_eq {s s' : Sprite} (h : clearAcc s = clearAcc s') : s.y = s'.y := by
  have h2 := congrArg Sprite.y h
  exact h2

lemma elig_of_clearAcc_eq {s s' : Sprite} (h : clearAcc s = clearAcc s') :
    eligibleTarget s = eligibleTarget s' := by
  rw [← eligibleTarget_clearAcc s, ← eligibleTarget_clearAcc s', h]

lemma mapGet_clearAcc_congr (k : String) :
    ∀ (m m' : List (String × Sprite)),
      m.map (fun p => (p.1, clearAcc p.2)) = m'.map (fun p => (p.1, clearAcc p.2)) →
      (mapGet m k).map clearAcc = (mapGet m' k).map clearAcc
  | [], [], _ => rfl
  | [], p' :: m', h => by simp at h
  | p :: m, [], h => by simp at h
  | p :: m, p' :: m', h => by
    simp only [List.map_cons, List.cons.injEq, Prod.mk.injEq] at h
    obtain ⟨⟨h1, h2⟩, hrest⟩ := h
    by_cases hk : (p.1 == k) = true
    · have hk' : (p'.1 == k) = true := h1 ▸ hk
      simp [mapGet, List.find?_cons, hk, hk', h2]
    · have hk2 : (p.1 == k) = false := by simpa using hk
      have hk2' : (p'.1 == k) = false := h1 ▸ hk2
      simpa [mapGet, List.find?_cons, hk2, hk2'] using mapGet_clearAcc_congr k m m' hrest

lemma getSprite_clearAcc_congr {st st' : SceneState} (h : staticKeys st = staticKeys st')
    (i : String) : (getSprite st i).map clearAcc = (getSprite st' i).map clearAcc :=
  mapGet_clearAcc_congr i _ _ h

lemma zoneStep_gravityZones (st : SceneState) (z : GravityZoneRec) :
    (zoneStep st z).gravityZones = st.gravityZones := rfl

lemma zoneStep_controlled (st : SceneState) (z : GravityZoneRec) :
    (zoneStep st z).controlledObjects = st.controlledObjects := rfl

lemma zoneStep_staticKeys (st : SceneState) (z : GravityZoneRec) :
    staticKeys (zoneStep st z) = staticKeys st := by
  show (st.objectSprites.map (fun p => (p.1, spriteZoneStep st p.2 z))).map
        (fun p => (p.1, clearAcc p.2)) = _
  rw [List.map_map]
  congr 1
  funext p
  simp [Function.comp, spriteZoneStep_clearAcc]

lemma getSprite_zoneStep (st : SceneState) (z : GravityZoneRec) (i : String) :
    getSprite (zoneStep st z) i = (getSprite st i).map (fun s => spriteZoneStep st s z) := by
  show mapGet (st.objectSprites.map (fun p => (p.1, spriteZoneStep st p.2 z))) i = _
  exact mapGet_map_val st.objectSprites (fun s => spriteZoneStep st s z) i

lemma inRangeOfAny_congr {st st' : SceneState} (hs : staticKeys st = staticKeys st')
    (hz : st.gravityZones = st'.gravityZones) (x y : ℝ) (M : ℚ) :
    inRangeOfAny st x y M = inRangeOfAny st' x y M := by
  unfold inRangeOfAny
  rw [hz]
  congr 1
  funext oz
  have h := getSprite_clearAcc_congr hs oz.spriteId
  cases h1 : getSprite st oz.spriteId <;> cases h2 : getSprite st' oz.spriteId <;>
    rw [h1, h2] at h <;> simp_all
  rw [x_of_clearAcc_eq h, y_of_clearAcc_eq h]

lemma spriteZoneStep_congr {st st' : SceneState} (hs : staticKeys st = staticKeys st')
    (hz : st.gravityZones = st'.gravityZones) (s : Sprite) (z : GravityZoneRec) :
    spriteZoneStep st s z = spriteZoneStep st' s z := by
  unfold spriteZoneStep
  have h := getSprite_clearAcc_congr hs z.spriteId
  cases h1 : getSprite st z.spriteId <;> cases h2 : getSprite st' z.spriteId <;>
    rw [h1, h2] at h <;> simp_all
  rw [x_of_clearAcc_eq h, y_of_clearAcc_eq h]
  unfold applyZoneSprite
  rw [inRangeOfAny_congr hs hz]

lemma foldl_zoneStep_getSprite (st0 : SceneState) (i : String) :
    ∀ (l : List GravityZoneRec) (st : SceneState),
      staticKeys st = staticKeys st0 → st.gravityZones = st0.gravityZones →
      getSprite (l.foldl zoneStep st) i =
        (getSprite st i).map (fun s => l.foldl (spriteZoneStep st0) s) := by
  intro l
  induction l with
  | nil => intro st _ _; simp
  | cons z l ih =>
    intro st hs hz
    rw [List.foldl_cons,
        ih (zoneStep st z) (by rw [zoneStep_staticKeys, hs]) (by rw [zoneStep_gravityZones, hz]),
        getSprite_zoneStep, Option.map_map]
    congr 1
    funext s
    simp only [Function.comp, List.foldl_cons, spriteZoneStep_congr hs hz]

lemma getSprite_forceStep (st : SceneState) (i : String) :
    getSprite (forceStep st) i =
      (getSprite st i).map (fun s => st.gravityZones.foldl (spriteZoneStep st) s) :=
  foldl_zoneStep_getSprite st i st.gravityZones st rfl rfl

/-! ### Branch characterisations of one zone application -/

lemma applyZone_not_elig {s : Sprite} (st : SceneState) (cx cy : ℝ) (S M : ℚ)
    (h : eligibleTarget s = false) : applyZoneSprite st cx cy S M s = s := by
  unfold applyZoneSprite
  rw [h]
  rfl

lemma applyZone_inRange {s : Sprite} (st : SceneState) (cx cy : ℝ) (S M : ℚ)
    (he : eligibleTarget s = true) (h0 : 0 < jsDist s.x s.y cx cy)
    (hM : jsDist s.x s.y cx cy < (M : ℝ)) :
    applyZoneSprite st cx cy S M s =
      setAcc s
        ((cx - s.x) / jsDist s.x s.y cx cy *
          ((S : ℝ) / (jsDist s.x s.y cx cy * jsDist s.x s.y cx cy) * 10000))
        ((cy - s.y) / jsDist s.x s.y cx cy *
          ((S : ℝ) / (jsDist s.x s.y cx cy * jsDist s.x s.y cx cy) * 10000)) := by
  simp only [applyZoneSprite, he, Bool.not_true, Bool.false_eq_true, if_false]
  split_ifs with h1 h2 h3
  · rfl
  · exact absurd hM (not_lt.mpr h2)
  · exact absurd hM (not_lt.mpr h2)
  · exact absurd ⟨h0, hM⟩ h1

lemma applyZone_out_keep {s : Sprite} (st : SceneState) (cx cy : ℝ) (S M : ℚ)
    (he : eligibleTarget s = true) (hM : (M : ℝ) ≤ jsDist s.x s.y cx cy)
    (hr : inRangeOfAny st s.x s.y M = true) :
    applyZoneSprite st cx cy S M s = s := by
  simp only [applyZoneSprite, he, Bool.not_true, Bool.false_eq_true, if_false]
  split_ifs with h1
  · exact absurd hM (not_le.mpr h1.2)
  · rfl

lemma applyZone_out_reset {s : Sprite} (st : SceneState) (cx cy : ℝ) (S M : ℚ)
    (he : eligibleTarget s = true) (hM : (M : ℝ) ≤ jsDist s.x s.y cx cy)
    (hr : inRangeOfAny st s.x s.y M = false) :
    applyZoneSprite st cx cy S M s = setAcc s 0 0 := by
  simp only [applyZoneSprite, he, Bool.not_true, Bool.false_eq_true, if_false]
  split_ifs with h1 h2
  · exact absurd hM (not_le.mpr h1.2)
  · simp [h2] at hr
  · rfl

lemma spriteZoneStep_of_getSprite {st : SceneState} {z : GravityZoneRec} {gs : Sprite}
    (hz : getSprite st z.spriteId = some gs) (s : Sprite) :
    spriteZoneStep st s z =
      applyZoneSprite st gs.x gs.y (zoneStrength z.data) (zoneMaxDistance z.data) s := by
  unfold spriteZoneStep
  rw [hz]

lemma applyZone_other {s : Sprite} (st : SceneState) (cx cy : ℝ) (S M : ℚ)
    (h1 : ¬(jsDist s.x s.y cx cy > 0 ∧ jsDist s.x s.y cx cy < (M : ℝ)))
    (h2 : ¬(jsDist s.x s.y cx cy ≥ (M : ℝ))) :
    applyZoneSprite st cx cy S M s = s := by
  by_cases he : eligibleTarget s = true
  · simp only [applyZoneSprite, he, Bool.not_true, Bool.false_eq_true, if_false]
    rw [if_neg h1, if_neg h2]
  · exact applyZone_not_elig st cx cy S M (by simpa using he)

lemma setAcc_x (s : Sprite) (a b : ℝ) : (setAcc s a b).x = s.x := rfl

lemma setAcc_y (s : Sprite) (a b : ℝ) : (setAcc s a b).y = s.y := rfl

lemma setAcc_accX (s : Sprite) (a b : ℝ) : (setAcc s a b).body.accX = a := rfl

lemma setAcc_accY (s : Sprite) (a b : ℝ) : (setAcc s a b).body.accY = b := rfl

lemma eligibleTarget_setAcc (s : Sprite) (a b : ℝ) :
    eligibleTarget (setAcc s a b) = eligibleTarget s := rfl

lemma inRangeOfAny_eq_true_of {st : SceneState} {x y : ℝ} {M : ℚ} {z : GravityZoneRec}
    {gz : Sprite} (hz : z ∈ st.gravityZones) (hg : getSprite st z.spriteId = some gz)
    (hlt : jsDist x y gz.x gz.y < (M : ℝ)) : inRangeOfAny st x y M = true := by
  unfold inRangeOfAny
  rw [List.any_eq_true]
  refine ⟨z, hz, ?_⟩
  rw [hg]
  simpa using hlt

lemma inRangeOfAny_eq_false {st : SceneState} {x y : ℝ} {M : ℚ}
    (h : ∀ z ∈ st.gravityZones, ∀ gz, getSprite st z.spriteId = some gz →
      ¬(jsDist x y gz.x gz.y < (M : ℝ))) : inRangeOfAny st x y M = false := by
  unfold inRangeOfAny
  rw [List.any_eq_false]
  intro z hz
  cases hg : getSprite st z.spriteId with
  | none => simp
  | some gz => simpa using h z hz gz hg

lemma foldZones_of_not_elig (st : SceneState) {s : Sprite}
    (he : eligibleTarget s = false) :
    ∀ (l : List GravityZoneRec), l.foldl (spriteZoneStep st) s = s := by
  intro l
  induction l with
  | nil => rfl
  | cons z l ih =>
    rw [List.foldl_cons]
    have hstep : spriteZoneStep st s z = s := by
      unfold spriteZoneStep
      cases getSprite st z.spriteId
      · rfl
      · exact applyZone_not_elig _ _ _ _ _ he
    rw [hstep, ih]

lemma exists_min_by {α : Type} (f : α → ℚ) :
    ∀ (l : List α), l ≠ [] → ∃ a ∈ l, ∀ b ∈ l, f a ≤ f b
  | [], h => absurd rfl h
  | a :: l, _ => by
    cases l with
    | nil =>
      refine ⟨a, List.mem_singleton_self a, ?_⟩
      intro b hb
      rw [List.mem_singleton.mp hb]
    | cons c l' =>
      obtain ⟨m, hm, hmin⟩ := exists_min_by f (c :: l') (by simp)
      rcases le_total (f a) (f m) with h | h
      · refine ⟨a, List.mem_cons_self .., ?_⟩
        intro b hb
        rcases List.mem_cons.mp hb with rfl | hb'
        · exact le_rfl
        · exact le_trans h (hmin b hb')
      · refine ⟨m, List.mem_cons_of_mem _ hm, ?_⟩
        intro b hb
        rcases List.mem_cons.mp hb with rfl | hb'
        · exact h
        · exact hmin b hb'

/-- Folding zones that are all out of the entity's range (each by its own max
distance) keeps a zero acceleration at zero (every such step either leaves
the sprite alone or resets its acceleration to zero again). -/
lemma foldZones_keep_zero (st : SceneState) (s : Sprite) (he : eligibleTarget s = true) :
    ∀ (v : List GravityZoneRec) (s2 : Sprite), clearAcc s2 = clearAcc s →
      s2.body.accX = 0 → s2.body.accY = 0 →
      (∀ z ∈ v, ∀ gz, getSprite st z.spriteId = some gz →
        jsDist s.x s.y gz.x gz.y ≥ ((zoneMaxDistance z.data : ℚ) : ℝ)) →
      (v.foldl (spriteZoneStep st) s2).body.accX = 0 ∧
        (v.foldl (spriteZoneStep st) s2).body.accY = 0 := by
  intro v
  induction v with
  | nil => intro s2 _ hx hy _; exact ⟨hx, hy⟩
  | cons z v ih =>
    intro s2 hca hx hy hout
    rw [List.foldl_cons]
    have he2 : eligibleTarget s2 = true := (elig_of_clearAcc_eq hca).trans he
    have hx2 : s2.x = s.x := x_of_clearAcc_eq hca
    have hy2 : s2.y = s.y := y_of_clearAcc_eq hca
    cases hg : getSprite st z.spriteId with
    | none =>
      rw [spriteZoneStep, hg]
      exact ih s2 hca hx hy (fun z' hz' => hout z' (List.mem_cons_of_mem _ hz'))
    | some gz =>
      have hM : ((zoneMaxDistance z.data : ℚ) : ℝ) ≤ jsDist s2.x s2.y gz.x gz.y := by
        rw [hx2, hy2]
        exact hout z (List.mem_cons_self ..) gz hg
      rw [spriteZoneStep_of_getSprite hg]
      cases hr : inRangeOfAny st s2.x s2.y (zoneMaxDistance z.data) with
      | true =>
        rw [applyZone_out_keep st gz.x gz.y _ _ he2 hM hr]
        exact ih s2 hca hx hy (fun z' hz' => hout z' (List.mem_cons_of_mem _ hz'))
      | false =>
        rw [applyZone_out_reset st gz.x gz.y _ _ he2 hM hr]
        exact ih (setAcc s2 0 0) ((clearAcc_setAcc ..).trans hca) rfl rfl
          (fun z' hz' => hout z' (List.mem_cons_of_mem _ hz'))

/-- Folding zones that are all out of range, under a common max distance `M`,
when the entity is known to be within `M` of some stored zone: every step
leaves the sprite exactly unchanged (the out-of-range reset is suppressed by
the in-range zone). -/
lemma foldZones_keep_all (st : SceneState) (s : Sprite) (he : eligibleTarget s = true)
    (M : ℚ) (zin : GravityZoneRec) (gin : Sprite) (hzin : zin ∈ st.gravityZones)
    (hgin : getSprite st zin.spriteId = some gin)
    (hlt : jsDist s.x s.y gin.x gin.y < (M : ℝ)) :
    ∀ (v : List GravityZoneRec) (s2 : Sprite), clearAcc s2 = clearAcc s →
      (∀ z ∈ v, zoneMaxDistance z.data = M) →
      (∀ z ∈ v, ∀ gz, getSprite st z.spriteId = some gz →
        ¬(jsDist s.x s.y gz.x gz.y > 0 ∧ jsDist s.x s.y gz.x gz.y < (M : ℝ))) →
      v.foldl (spriteZoneStep st) s2 = s2 := by
  intro v
  induction v with
  | nil => intro s2 _ _ _; rfl
  | cons z v ih =>
    intro s2 hca hMv hout
    rw [List.foldl_cons]
    have he2 : eligibleTarget s2 = true := (elig_of_clearAcc_eq hca).trans he
    have hx2 : s2.x = s.x := x_of_clearAcc_eq hca
    have hy2 : s2.y = s.y := y_of_clearAcc_eq hca
    have hMz : zoneMaxDistance z.data = M := hMv z (List.mem_cons_self ..)
    have hstep : spriteZoneStep st s2 z = s2 := by
      cases hg : getSprite st z.spriteId with
      | none => rw [spriteZoneStep, hg]
      | some gz =>
        rw [spriteZoneStep_of_getSprite hg]
        have hnr : ¬(jsDist s2.x s2.y gz.x gz.y > 0 ∧ jsDist s2.x s2.y gz.x gz.y <
            ((zoneMaxDistance z.data : ℚ) : ℝ)) := by
          rw [hx2, hy2, hMz]
          exact hout z (List.mem_cons_self ..) gz hg
        by_cases hge : jsDist s2.x s2.y gz.x gz.y ≥ ((zoneMaxDistance z.data : ℚ) : ℝ)
        · have hr : inRangeOfAny st s2.x s2.y (zoneMaxDistance z.data) = true := by
            rw [hx2, hy2, hMz]
            exact inRangeOfAny_eq_true_of hzin hgin hlt
          exact applyZone_out_keep st gz.x gz.y _ _ he2 hge hr
        · exact applyZone_other st gz.x gz.y _ _ hnr hge
    rw [hstep]
    exact ih s2 hca (fun z' hz' => hMv z' (List.mem_cons_of_mem _ hz'))
      (fun z' hz' => hout z' (List.mem_cons_of_mem _ hz'))

/-- C4: an eligible target at distance `d` from the (single) gravity zone
with effective strength `S` and effective max distance `M`, with
`0 < d < M`, gets its acceleration set to the inverse-square pull: each
component is `(delta / d) * (S / d² * 10000)`, the magnitude is
`|S| / d² * 10000`, and the vector points toward the zone center when
`S > 0` and away from it when `S < 0`. -/
theorem zone_force_inverse_square (st : SceneState) (z : GravityZoneRec) (gs : Sprite)
    (i : String) (s : Sprite)
    (hzs : st.gravityZones = [z]) (hg : getSprite st z.spriteId = some gs)
    (hs : getSprite st i = some s) (he : eligibleTarget s = true)
    (h0 : jsDist s.x s.y gs.x gs.y > 0)
    (hM : jsDist s.x s.y gs.x gs.y < ((zoneMaxDistance z.data : ℚ) : ℝ)) :
    ∃ s', getSprite (forceStep st) i = some s' ∧
      s'.body.accX = (gs.x - s.x) / jsDist s.x s.y gs.x gs.y *
        ((zoneStrength z.data : ℝ) /
          (jsDist s.x s.y gs.x gs.y * jsDist s.x s.y gs.x gs.y) * 10000) ∧
      s'.body.accY = (gs.y - s.y) / jsDist s.x s.y gs.x gs.y *
        ((zoneStrength z.data : ℝ) /
          (jsDist s.x s.y gs.x gs.y * jsDist s.x s.y gs.x gs.y) * 10000) ∧
      Real.sqrt (s'.body.accX ^ 2 + s'.body.accY ^ 2) =
        |(zoneStrength z.data : ℝ)| /
          (jsDist s.x s.y gs.x gs.y * jsDist s.x s.y gs.x gs.y) * 10000 ∧
      ∃ c : ℝ, s'.body.accX = c * (gs.x - s.x) ∧ s'.body.accY = c * (gs.y - s.y) ∧
        (0 < zoneStrength z.data → 0 < c) ∧ (zoneStrength z.data < 0 → c < 0) := by
  set d := jsDist s.x s.y gs.x gs.y with hdd
  set S : ℝ := ((zoneStrength z.data : ℚ) : ℝ) with hSS
  have hfold : st.gravityZones.foldl (spriteZoneStep st) s =
      setAcc s ((gs.x - s.x) / d * (S / (d * d) * 10000))
               ((gs.y - s.y) / d * (S / (d * d) * 10000)) := by
    rw [hzs, List.foldl_cons, List.foldl_nil, spriteZoneStep_of_getSprite hg]
    exact applyZone_inRange st gs.x gs.y _ _ he h0 hM
  have hd0 : d ≠ 0 := ne_of_gt h0
  have hmulself : d * d = (gs.x - s.x) * (gs.x - s.x) + (gs.y - s.y) * (gs.y - s.y) :=
    Real.mul_self_sqrt (add_nonneg (mul_self_nonneg _) (mul_self_nonneg _))
  refine ⟨setAcc s ((gs.x - s.x) / d * (S / (d * d) * 10000))
            ((gs.y - s.y) / d * (S / (d * d) * 10000)),
          by rw [getSprite_forceStep, hs, Option.map_some', hfold], rfl, rfl, ?_, ?_⟩
  · -- magnitude
    simp only [setAcc_accX, setAcc_accY]
    have hsum : ((gs.x - s.x) / d * (S / (d * d) * 10000)) ^ 2 +
        ((gs.y - s.y) / d * (S / (d * d) * 10000)) ^ 2 = (S / (d * d) * 10000) ^ 2 := by
      have h1 : ((gs.x - s.x) / d * (S / (d * d) * 10000)) ^ 2 +
          ((gs.y - s.y) / d * (S / (d * d) * 10000)) ^ 2 =
          ((gs.x - s.x) * (gs.x - s.x) + (gs.y - s.y) * (gs.y - s.y)) *
            (S / (d * d) * 10000) ^ 2 / (d * d) := by
        field_simp
        ring
      rw [h1, ← hmulself]
      field_simp
      ring
    rw [hsum, Real.sqrt_sq_eq_abs, abs_mul, abs_div,
        abs_of_pos (mul_pos h0 h0), abs_of_pos (show (0:ℝ) < 10000 by norm_num)]
  · -- direction
    refine ⟨S / (d * d) * 10000 / d, by rw [setAcc_accX]; ring, by rw [setAcc_accY]; ring,
            ?_, ?_⟩
    · intro hpos
      have hS0 : (0 : ℝ) < S := by rw [hSS]; exact_mod_cast hpos
      exact div_pos (mul_pos (div_pos hS0 (mul_pos h0 h0)) (by norm_num)) h0
    · intro hneg
      have hS0 : S < 0 := by rw [hSS]; exact_mod_cast hneg
      exact div_neg_of_neg_of_pos
        (mul_neg_of_neg_of_pos (div_neg_of_neg_of_pos hS0 (mul_pos h0 h0)) (by norm_num)) h0

/-- Witness for the C4 theorem: in the one-zone scene with the target at
(3, 4), distance 5, strength 500, the tick sets acceleration
(-120000, -160000), of magnitude 500 / 25 × 10000 = 200000. -/
theorem zone_force_inverse_square_witness :
    ∃ s', getSprite (forceStep sceneOneZoneNear) "t" = some s' ∧
      s'.body.accX = -120000 ∧ s'.body.accY = -160000 ∧
      Real.sqrt (s'.body.accX ^ 2 + s'.body.accY ^ 2) = 200000 := by
  have hd : jsDist (builtSprite objTargetNear).x (builtSprite objTargetNear).y
      (builtSprite objZoneDefault).x (builtSprite objZoneDefault).y = 5 := by
    show Real.sqrt ((((0:ℚ):ℝ) - ((3:ℚ):ℝ)) * (((0:ℚ):ℝ) - ((3:ℚ):ℝ)) +
      (((0:ℚ):ℝ) - ((4:ℚ):ℝ)) * (((0:ℚ):ℝ) - ((4:ℚ):ℝ))) = 5
    rw [show (((0:ℚ):ℝ) - ((3:ℚ):ℝ)) * (((0:ℚ):ℝ) - ((3:ℚ):ℝ)) +
      (((0:ℚ):ℝ) - ((4:ℚ):ℝ)) * (((0:ℚ):ℝ) - ((4:ℚ):ℝ)) = 25 by push_cast; norm_num,
      show (25:ℝ) = 5 ^ 2 by norm_num]
    exact Real.sqrt_sq (by norm_num)
  obtain ⟨s', hget, hax, hay, hmag, -⟩ :=
    zone_force_inverse_square sceneOneZoneNear zoneRecDefault (builtSprite objZoneDefault)
      "t" (builtSprite objTargetNear) rfl rfl rfl (by decide)
      (by rw [hd]; norm_num)
      (by rw [hd]; show (5:ℝ) < ((800:ℚ):ℝ); push_cast; norm_num)
  rw [hd, show zoneStrength zoneRecDefault.data = (500:ℚ) from by decide,
      show (builtSprite objZoneDefault).x = ((0:ℚ):ℝ) from rfl,
      show (builtSprite objTargetNear).x = ((3:ℚ):ℝ) from rfl] at hax
  rw [hd, show zoneStrength zoneRecDefault.data = (500:ℚ) from by decide,
      show (builtSprite objZoneDefault).y = ((0:ℚ):ℝ) from rfl,
      show (builtSprite objTargetNear).y = ((4:ℚ):ℝ) from rfl] at hay
  rw [hd, show zoneStrength zoneRecDefault.data = (500:ℚ) from by decide] at hmag
  refine ⟨s', hget, ?_, ?_, ?_⟩
  · rw [hax]; push_cast; norm_num
  · rw [hay]; push_cast; norm_num
  · rw [hmag, abs_of_pos (show (0:ℝ) < ((500:ℚ):ℝ) by push_cast; norm_num)]
    push_cast
    norm_num

/-- C6: an eligible target whose distance from every stored zone is at least
that zone's own effective max distance (at least one zone present) ends the
force step with acceleration (0, 0): the zone with the smallest max distance
finds no zone in range and resets the acceleration, and every later zone
either keeps or re-zeroes it. -/
theorem outside_all_zones_zero_accel (st : SceneState) (i : String) (s : Sprite)
    (hs : getSprite st i = some s) (he : eligibleTarget s = true)
    (hnz : st.gravityZones ≠ [])
    (hout : ∀ z ∈ st.gravityZones, ∃ gz, getSprite st z.spriteId = some gz ∧
      jsDist s.x s.y gz.x gz.y ≥ ((zoneMaxDistance z.data : ℚ) : ℝ)) :
    ∃ s', getSprite (forceStep st) i = some s' ∧ s'.body.accX = 0 ∧ s'.body.accY = 0 := by
  rw [getSprite_forceStep, hs, Option.map_some']
  refine ⟨_, rfl, ?_⟩
  obtain ⟨z0, hz0, hmin⟩ := exists_min_by (fun z => zoneMaxDistance z.data) st.gravityZones hnz
  obtain ⟨u, v, hsplit⟩ := List.append_of_mem hz0
  obtain ⟨g0, hg0, hd0⟩ := hout z0 hz0
  rw [hsplit, List.foldl_append, List.foldl_cons]
  set s1 := u.foldl (spriteZoneStep st) s with hs1def
  have hca1 : clearAcc s1 = clearAcc s := foldZones_clearAcc ..
  have he1 : eligibleTarget s1 = true := (elig_of_clearAcc_eq hca1).trans he
  have hx1 : s1.x = s.x := x_of_clearAcc_eq hca1
  have hy1 : s1.y = s.y := y_of_clearAcc_eq hca1
  have hr : inRangeOfAny st s1.x s1.y (zoneMaxDistance z0.data) = false := by
    apply inRangeOfAny_eq_false
    intro z hz gz hgz
    obtain ⟨gz', hgz', hdz⟩ := hout z hz
    have hzz : gz' = gz := by rw [hgz] at hgz'; exact (Option.some.inj hgz').symm
    subst hzz
    rw [hx1, hy1]
    intro hltc
    have hle : ((zoneMaxDistance z0.data : ℚ) : ℝ) ≤ ((zoneMaxDistance z.data : ℚ) : ℝ) := by
      exact_mod_cast hmin z hz
    exact absurd hltc (not_lt.mpr (le_trans hle hdz))
  have hge1 : ((zoneMaxDistance z0.data : ℚ) : ℝ) ≤ jsDist s1.x s1.y g0.x g0.y := by
    rw [hx1, hy1]; exact hd0
  rw [spriteZoneStep_of_getSprite hg0, applyZone_out_reset st g0.x g0.y _ _ he1 hge1 hr]
  refine foldZones_keep_zero st s he v (setAcc s1 0 0) ((clearAcc_setAcc ..).trans hca1) rfl rfl ?_
  intro z hz gz hgz
  obtain ⟨gz', hgz', hdz⟩ := hout z (by
    rw [hsplit]; exact List.mem_append_right _ (List.mem_cons_of_mem _ hz))
  have hzz : gz' = gz := by rw [hgz] at hgz'; exact (Option.some.inj hgz').symm
  subst hzz
  exact hdz

/-- Witness for the C6 theorem: the target at (900, 0) is 900 away from the
only zone, beyond its 800 max distance, and ends the force step with zero
acceleration. -/
theorem outside_all_zones_zero_accel_witness :
    ∃ s', getSprite (forceStep sceneOneZoneFar) "t" = some s' ∧
      s'.body.accX = 0 ∧ s'.body.accY = 0 := by
  have hd : jsDist (builtSprite objTargetFar).x (builtSprite objTargetFar).y
      (builtSprite objZoneDefault).x (builtSprite objZoneDefault).y = 900 := by
    show Real.sqrt ((((0:ℚ):ℝ) - ((900:ℚ):ℝ)) * (((0:ℚ):ℝ) - ((900:ℚ):ℝ)) +
      (((0:ℚ):ℝ) - ((0:ℚ):ℝ)) * (((0:ℚ):ℝ) - ((0:ℚ):ℝ))) = 900
    rw [show (((0:ℚ):ℝ) - ((900:ℚ):ℝ)) * (((0:ℚ):ℝ) - ((900:ℚ):ℝ)) +
      (((0:ℚ):ℝ) - ((0:ℚ):ℝ)) * (((0:ℚ):ℝ) - ((0:ℚ):ℝ)) = 810000 by push_cast; norm_num,
      show (810000:ℝ) = 900 ^ 2 by norm_num]
    exact Real.sqrt_sq (by norm_num)
  refine outside_all_zones_zero_accel sceneOneZoneFar "t" (builtSprite objTargetFar)
    rfl (by decide) ?_ ?_
  · rw [show sceneOneZoneFar.gravityZones = [zoneRecDefault] from rfl]
    simp
  · intro z hz
    rw [show sceneOneZoneFar.gravityZones = [zoneRecDefault] from rfl] at hz
    obtain rfl := List.mem_singleton.mp hz
    refine ⟨builtSprite objZoneDefault, rfl, ?_⟩
    rw [hd]
    show ((800:ℚ):ℝ) ≤ (900:ℝ)
    push_cast
    norm_num

/-- C5 (amended): when every zone shares the same effective max distance `M`,
each in-range zone overwrites the target's acceleration in registration
order, so the force step ends with the value computed from the last in-range
zone alone.  (Without the common-`M` hypothesis this fails: a later
out-of-range zone with a smaller max distance resets the acceleration, see
the counterexample.) -/
theorem last_in_range_zone_wins (st : SceneState) (i : String) (s : Sprite) (M : ℚ)
    (u v : List GravityZoneRec) (zstar : GravityZoneRec) (gstar : Sprite)
    (hs : getSprite st i = some s) (he : eligibleTarget s = true)
    (hMall : ∀ z ∈ st.gravityZones, zoneMaxDistance z.data = M)
    (hsplit : st.gravityZones = u ++ zstar :: v)
    (hg : getSprite st zstar.spriteId = some gstar)
    (h0 : jsDist s.x s.y gstar.x gstar.y > 0)
    (hlt : jsDist s.x s.y gstar.x gstar.y < (M : ℝ))
    (hafter : ∀ z ∈ v, ∀ gz, getSprite st z.spriteId = some gz →
      ¬(jsDist s.x s.y gz.x gz.y > 0 ∧ jsDist s.x s.y gz.x gz.y < (M : ℝ))) :
    ∃ s', getSprite (forceStep st) i = some s' ∧
      s'.body.accX = (gstar.x - s.x) / jsDist s.x s.y gstar.x gstar.y *
        ((zoneStrength zstar.data : ℝ) /
          (jsDist s.x s.y gstar.x gstar.y * jsDist s.x s.y gstar.x gstar.y) * 10000) ∧
      s'.body.accY = (gstar.y - s.y) / jsDist s.x s.y gstar.x gstar.y *
        ((zoneStrength zstar.data : ℝ) /
          (jsDist s.x s.y gstar.x gstar.y * jsDist s.x s.y gstar.x gstar.y) * 10000) := by
  rw [getSprite_forceStep, hs, Option.map_some']
  refine ⟨_, rfl, ?_⟩
  have hzmem : zstar ∈ st.gravityZones := by
    rw [hsplit]; exact List.mem_append_right _ (List.mem_cons_self ..)
  have hMz : zoneMaxDistance zstar.data = M := hMall zstar hzmem
  rw [hsplit, List.foldl_append, List.foldl_cons]
  set s1 := u.foldl (spriteZoneStep st) s with hs1def
  have hca1 : clearAcc s1 = clearAcc s := foldZones_clearAcc ..
  have he1 : eligibleTarget s1 = true := (elig_of_clearAcc_eq hca1).trans he
  have hx1 : s1.x = s.x := x_of_clearAcc_eq hca1
  have hy1 : s1.y = s.y := y_of_clearAcc_eq hca1
  have h0' : jsDist s1.x s1.y gstar.x gstar.y > 0 := by rw [hx1, hy1]; exact h0
  have hlt' : jsDist s1.x s1.y gstar.x gstar.y < ((zoneMaxDistance zstar.data : ℚ) : ℝ) := by
    rw [hx1, hy1, hMz]; exact hlt
  rw [spriteZoneStep_of_getSprite hg, applyZone_inRange st gstar.x gstar.y _ _ he1 h0' hlt']
  have hMv : ∀ z ∈ v, zoneMaxDistance z.data = M := by
    intro z hz
    refine hMall z ?_
    rw [hsplit]
    exact List.mem_append_right _ (List.mem_cons_of_mem _ hz)
  rw [foldZones_keep_all st s he M zstar gstar hzmem hg hlt v _
        ((clearAcc_setAcc ..).trans hca1) hMv hafter]
  rw [setAcc_accX, setAcc_accY, hx1, hy1]
  exact ⟨rfl, rfl⟩

/-- Witness for the C5 theorem: with two zones of the common default max
distance 800, the repulsion zone at (600, 0) is processed last and alone
determines the final acceleration of the target at (500, 0): accX = -300
(pushed away from the zone), accY = 0. -/
theorem last_in_range_zone_wins_witness :
    ∃ s', getSprite (forceStep sceneTwoZonesSameM) "t" = some s' ∧
      s'.body.accX = -300 ∧ s'.body.accY = 0 := by
  have hd : jsDist (builtSprite objTargetMid).x (builtSprite objTargetMid).y
      (builtSprite objZoneRepel).x (builtSprite objZoneRepel).y = 100 := by
    show Real.sqrt ((((600:ℚ):ℝ) - ((500:ℚ):ℝ)) * (((600:ℚ):ℝ) - ((500:ℚ):ℝ)) +
      (((0:ℚ):ℝ) - ((0:ℚ):ℝ)) * (((0:ℚ):ℝ) - ((0:ℚ):ℝ))) = 100
    rw [show (((600:ℚ):ℝ) - ((500:ℚ):ℝ)) * (((600:ℚ):ℝ) - ((500:ℚ):ℝ)) +
      (((0:ℚ):ℝ) - ((0:ℚ):ℝ)) * (((0:ℚ):ℝ) - ((0:ℚ):ℝ)) = 10000 by push_cast; norm_num,
      show (10000:ℝ) = 100 ^ 2 by norm_num]
    exact Real.sqrt_sq (by norm_num)
  have hMall : ∀ z ∈ sceneTwoZonesSameM.gravityZones, zoneMaxDistance z.data = 800 := by
    intro z hz
    rw [show sceneTwoZonesSameM.gravityZones = [zoneRecDefault, zoneRecRepel] from rfl] at hz
    rcases List.mem_cons.mp hz with rfl | hz'
    · decide
    · obtain rfl := List.mem_singleton.mp hz'
      decide
  obtain ⟨s', hget, hax, hay⟩ :=
    last_in_range_zone_wins sceneTwoZonesSameM "t" (builtSprite objTargetMid) 800
      [zoneRecDefault] [] zoneRecRepel (builtSprite objZoneRepel)
      rfl (by decide) hMall rfl rfl
      (by rw [hd]; norm_num)
      (by rw [hd]; show (100:ℝ) < ((800:ℚ):ℝ); push_cast; norm_num)
      (by intro z hz; exact absurd hz (List.not_mem_nil z))
  rw [hd, show zoneStrength zoneRecRepel.data = (-300:ℚ) from by decide,
      show (builtSprite objZoneRepel).x = ((600:ℚ):ℝ) from rfl,
      show (builtSprite objTargetMid).x = ((500:ℚ):ℝ) from rfl] at hax
  rw [hd, show zoneStrength zoneRecRepel.data = (-300:ℚ) from by decide,
      show (builtSprite objZoneRepel).y = ((0:ℚ):ℝ) from rfl,
      show (builtSprite objTargetMid).y = ((0:ℚ):ℝ) from rfl] at hay
  refine ⟨s', hget, ?_, ?_⟩
  · rw [hax]; push_cast; norm_num
  · rw [hay]; push_cast; norm_num

/-- C5 counterexample: in the two-zone scene, the target at (500, 0) is in
range of the first zone (distance 500 < 800) and out of range of the second
(distance 500 ≥ 100), so the first zone is the last-processed in-range zone
and the claim predicts its value, accX = -20.  But the second zone's
out-of-range pass compares every zone's distance against ITS OWN max
distance 100, finds no zone "in range", and resets the acceleration: the
force step ends with (0, 0) ≠ (-20, 0). -/
theorem multi_zone_overwrite_counterexample :
    (∃ s', getSprite (forceStep sceneTwoZones) "t" = some s' ∧
      s'.body.accX = 0 ∧ s'.body.accY = 0) ∧
    jsDist (builtSprite objTargetMid).x (builtSprite objTargetMid).y
      (builtSprite objZoneDefault).x (builtSprite objZoneDefault).y = 500 ∧
    (500:ℝ) < ((zoneMaxDistance zoneRecDefault.data : ℚ) : ℝ) ∧
    jsDist (builtSprite objTargetMid).x (builtSprite objTargetMid).y
      (builtSprite objZoneSmall).x (builtSprite objZoneSmall).y = 500 ∧
    ¬((500:ℝ) < ((zoneMaxDistance zoneRecSmall.data : ℚ) : ℝ)) ∧
    ((builtSprite objZoneDefault).x - (builtSprite objTargetMid).x) / 500 *
      ((zoneStrength zoneRecDefault.data : ℝ) / (500 * 500) * 10000) = -20 ∧
    ((-20:ℝ) ≠ 0) := by
  have hd1 : jsDist (builtSprite objTargetMid).x (builtSprite objTargetMid).y
      (builtSprite objZoneDefault).x (builtSprite objZoneDefault).y = 500 := by
    show Real.sqrt ((((0:ℚ):ℝ) - ((500:ℚ):ℝ)) * (((0:ℚ):ℝ) - ((500:ℚ):ℝ)) +
      (((0:ℚ):ℝ) - ((0:ℚ):ℝ)) * (((0:ℚ):ℝ) - ((0:ℚ):ℝ))) = 500
    rw [show (((0:ℚ):ℝ) - ((500:ℚ):ℝ)) * (((0:ℚ):ℝ) - ((500:ℚ):ℝ)) +
      (((0:ℚ):ℝ) - ((0:ℚ):ℝ)) * (((0:ℚ):ℝ) - ((0:ℚ):ℝ)) = 250000 by push_cast; norm_num,
      show (250000:ℝ) = 500 ^ 2 by norm_num]
    exact Real.sqrt_sq (by norm_num)
  have hd2 : jsDist (builtSprite objTargetMid).x (builtSprite objTargetMid).y
      (builtSprite objZoneSmall).x (builtSprite objZoneSmall).y = 500 := by
    show Real.sqrt ((((1000:ℚ):ℝ) - ((500:ℚ):ℝ)) * (((1000:ℚ):ℝ) - ((500:ℚ):ℝ)) +
      (((0:ℚ):ℝ) - ((0:ℚ):ℝ)) * (((0:ℚ):ℝ) - ((0:ℚ):ℝ))) = 500
    rw [show (((1000:ℚ):ℝ) - ((500:ℚ):ℝ)) * (((1000:ℚ):ℝ) - ((500:ℚ):ℝ)) +
      (((0:ℚ):ℝ) - ((0:ℚ):ℝ)) * (((0:ℚ):ℝ) - ((0:ℚ):ℝ)) = 250000 by push_cast; norm_num,
      show (250000:ℝ) = 500 ^ 2 by norm_num]
    exact Real.sqrt_sq (by norm_num)
  have he : eligibleTarget (builtSprite objTargetMid) = true := by decide
  have hzones : sceneTwoZones.gravityZones = [zoneRecDefault, zoneRecSmall] := rfl
  refine ⟨?_, hd1, ?_, hd2, ?_, ?_, by norm_num⟩
  · -- the force step resets the acceleration to (0, 0)
    have hs : getSprite sceneTwoZones "t" = some (builtSprite objTargetMid) := rfl
    rw [getSprite_forceStep, hs, Option.map_some', hzones, List.foldl_cons, List.foldl_cons,
        List.foldl_nil]
    obtain ⟨A, B, hstep1⟩ : ∃ A B,
        spriteZoneStep sceneTwoZones (builtSprite objTargetMid) zoneRecDefault =
          setAcc (builtSprite objTargetMid) A B :=
      ⟨_, _, by
        rw [spriteZoneStep_of_getSprite
          (show getSprite sceneTwoZones zoneRecDefault.spriteId =
            some (builtSprite objZoneDefault) from rfl)]
        exact applyZone_inRange _ _ _ _ _ he (by rw [hd1]; norm_num)
          (by rw [hd1]; show (500:ℝ) < ((800:ℚ):ℝ); push_cast; norm_num)⟩
    rw [hstep1,
        spriteZoneStep_of_getSprite
          (show getSprite sceneTwoZones zoneRecSmall.spriteId =
            some (builtSprite objZoneSmall) from rfl)]
    have he2 : eligibleTarget (setAcc (builtSprite objTargetMid) A B) = true := by
      rw [eligibleTarget_setAcc]; exact he
    have hge : ((zoneMaxDistance zoneRecSmall.data : ℚ) : ℝ) ≤
        jsDist (setAcc (builtSprite objTargetMid) A B).x
          (setAcc (builtSprite objTargetMid) A B).y
          (builtSprite objZoneSmall).x (builtSprite objZoneSmall).y := by
      rw [setAcc_x, setAcc_y, hd2]
      show ((100:ℚ):ℝ) ≤ (500:ℝ)
      push_cast
      norm_num
    have hr : inRangeOfAny sceneTwoZones (setAcc (builtSprite objTargetMid) A B).x
        (setAcc (builtSprite objTargetMid) A B).y (zoneMaxDistance zoneRecSmall.data)
        = false := by
      apply inRangeOfAny_eq_false
      intro z hz gz hgz
      rw [hzones] at hz
      rw [setAcc_x, setAcc_y]
      rcases List.mem_cons.mp hz with rfl | hz'
      · obtain rfl : gz = builtSprite objZoneDefault := by
          rw [show getSprite sceneTwoZones zoneRecDefault.spriteId =
            some (builtSprite objZoneDefault) from rfl] at hgz
          exact (Option.some.inj hgz).symm
        rw [hd1]
        show ¬((500:ℝ) < ((100:ℚ):ℝ))
        push_cast
        norm_num
      · obtain rfl := List.mem_singleton.mp hz'
        obtain rfl : gz = builtSprite objZoneSmall := by
          rw [show getSprite sceneTwoZones zoneRecSmall.spriteId =
            some (builtSprite objZoneSmall) from rfl] at hgz
          exact (Option.some.inj hgz).symm
        rw [hd2]
        show ¬((500:ℝ) < ((100:ℚ):ℝ))
        push_cast
        norm_num
    rw [applyZone_out_reset sceneTwoZones (builtSprite objZoneSmall).x
          (builtSprite objZoneSmall).y _ _ he2 hge hr]
    exact ⟨_, rfl, rfl, rfl⟩
  · show (500:ℝ) < ((800:ℚ):ℝ)
    push_cast
    norm_num
  · show ¬((500:ℝ) < ((100:ℚ):ℝ))
    push_cast
    norm_num
  · rw [show (builtSprite objZoneDefault).x = ((0:ℚ):ℝ) from rfl,
        show (builtSprite objTargetMid).x = ((500:ℚ):ℝ) from rfl,
        show zoneStrength zoneRecDefault.data = (500:ℚ) from by decide]
    push_cast
    norm_num

/-- C1 (amended): an entity whose object has no enabled Physics behavior is
never a force-field target — the whole force step leaves its sprite (and in
particular its acceleration) completely unchanged.  The other half of the
original claim is false: such entities do enter the collision graph (see the
counterexample). -/
theorem no_physics_never_forced (st : SceneState) (i : String) (s : Sprite)
    (hs : getSprite st i = some s) (hnp : hasEnabledPhysics s.obj = false) :
    getSprite (forceStep st) i = some s := by
  have he : eligibleTarget s = false := by
    simp [eligibleTarget, hnp]
  rw [getSprite_forceStep, hs, Option.map_some', foldZones_of_not_elig st he]

/-- Witness for the C1 theorem: in a scene with a gravity zone and a plain
behavior-less platform, the force step leaves the platform's sprite exactly
as built. -/
theorem no_physics_never_forced_witness :
    getSprite (forceStep (buildScene [objZoneDefault, objPlainA])) "a" =
      some (builtSprite objPlainA) :=
  no_physics_never_forced (buildScene [objZoneDefault, objPlainA]) "a"
    (builtSprite objPlainA) rfl rfl

/-- C1 counterexample: two plain platforms with no behaviors at all — hence
no enabled Physics behavior — still receive a collider from the collision
builder, because every non-controller object gets an Arcade body and
`setupCollisions` considers every sprite with a body. -/
theorem no_physics_in_collision_graph_counterexample :
    hasEnabledPhysics objPlainA = false ∧ hasEnabledPhysics objPlainB = false ∧
    colliderIdPairs (buildScene [objPlainA, objPlainB]) = [("a", "b")] := by
  refine ⟨rfl, rfl, by decide⟩

/-! ### Scene-construction stage lemmas -/

lemma applyObliqueSetup_gravityY (obj : GameObject) (s : Sprite) :
    (applyObliqueSetup obj s).body.gravityY = s.body.gravityY := by
  unfold applyObliqueSetup
  split
  · rfl
  · split_ifs <;> rfl

lemma applyFixedSetup_body (obj : GameObject) (s : Sprite) :
    (applyFixedSetup obj s).body = s.body := by
  unfold applyFixedSetup
  split
  · rfl
  · split_ifs <;> rfl

lemma applyPhysicsSetup_gravityY (obj : GameObject) (s : Sprite) (pb : GameBehavior)
    (hb : ¬obj.type = ObjType.boundary)
    (hp : obj.behaviors.find? (fun b => b.type == BehaviorType.physics) = some pb)
    (he : pb.params.enabled = true) :
    (applyPhysicsSetup obj s).body.gravityY =
      (((if !((obj.behaviors.find? (fun b => b.type == BehaviorType.controls)).bind
            (fun b => b.params.allowVerticalMovement) == some false) then (0:ℚ)
         else jsOrQ pb.params.gravityScale 0) * 300 : ℚ) : ℝ) := by
  unfold applyPhysicsSetup
  rw [if_neg hb, hp]
  simp only [he, if_true]

lemma applyPhysicsSetup_boundary (obj : GameObject) (s : Sprite)
    (hb : obj.type = ObjType.boundary) :
    applyPhysicsSetup obj s =
      { s with
          body := { s.body with
                      immovable := true
                      allowGravity := false
                      collideWorldBounds := false } } := by
  unfold applyPhysicsSetup
  rw [if_pos hb]

lemma applyObliqueSetup_body (obj : GameObject) (s : Sprite) :
    ∃ im ag, (applyObliqueSetup obj s).body =
      { s.body with immovable := im, allowGravity := ag } ∧
      (s.body.immovable = true → im = true) ∧
      (s.body.allowGravity = false → ag = false) := by
  unfold applyObliqueSetup
  split
  · exact ⟨s.body.immovable, s.body.allowGravity, rfl, fun h => h, fun h => h⟩
  · split_ifs with h1 h2
    · exact ⟨true, false, rfl, fun _ => rfl, fun _ => rfl⟩
    · exact ⟨s.body.immovable, s.body.allowGravity, rfl, fun h => h, fun h => h⟩
    · exact ⟨s.body.immovable, s.body.allowGravity, rfl, fun h => h, fun h => h⟩

lemma applyObliqueSetup_body_congr (obj obj' : GameObject) (sA sB : Sprite)
    (hfind : obj'.behaviors.find? (fun b => b.type == BehaviorType.oblique) =
      obj.behaviors.find? (fun b => b.type == BehaviorType.oblique))
    (hbody : sA.body = sB.body) :
    (applyObliqueSetup obj' sA).body = (applyObliqueSetup obj sB).body := by
  unfold applyObliqueSetup
  rw [hfind]
  cases obj.behaviors.find? (fun b => b.type == BehaviorType.oblique) with
  | none => exact hbody
  | some ob =>
    dsimp only
    split_ifs <;> simp [hbody]

lemma find?_filter_keep {α : Type} (p q : α → Bool) (l : List α)
    (h : ∀ a, p a = true → q a = true) : (l.filter q).find? p = l.find? p := by
  induction l with
  | nil => rfl
  | cons a l ih =>
    by_cases hq : q a = true
    · rw [List.filter_cons_of_pos hq]
      cases hp : p a <;> simp [List.find?_cons, hp, ih]
    · have hp : p a = false := by
        cases hpa : p a
        · rfl
        · exact absurd (h a hpa) hq
      rw [List.filter_cons_of_neg (by simpa using hq), ih, List.find?_cons, hp]

lemma mem_colliderPairs : ∀ (l : List Sprite) (s t : Sprite),
    (s, t) ∈ colliderPairs l ↔
      ((∃ l1 l2 l3, l = l1 ++ s :: l2 ++ t :: l3) ∧ shouldCollide s t = true)
  | [], s, t => by
    simp only [colliderPairs, List.not_mem_nil, false_iff, not_and]
    rintro ⟨l1, l2, l3, h⟩
    cases l1 <;> simp_all
  | a :: l, s, t => by
    rw [colliderPairs]
    constructor
    · intro hmem
      rcases List.mem_append.mp hmem with hL | hR
      · rcases List.mem_map.mp hL with ⟨u, hu, hpair⟩
        obtain ⟨rfl, rfl⟩ : a = s ∧ u = t := by
          have h1 := congrArg Prod.fst hpair
          have h2 := congrArg Prod.snd hpair
          exact ⟨h1, h2⟩
        have hu' := List.mem_filter.mp hu
        obtain ⟨l2, l3, rfl⟩ := List.append_of_mem hu'.1
        exact ⟨⟨[], l2, l3, rfl⟩, hu'.2⟩
      · obtain ⟨⟨l1, l2, l3, rfl⟩, hsc⟩ := (mem_colliderPairs l s t).mp hR
        exact ⟨⟨a :: l1, l2, l3, rfl⟩, hsc⟩
    · rintro ⟨⟨l1, l2, l3, hsplit⟩, hsc⟩
      cases l1 with
      | nil =>
        obtain ⟨rfl, hl⟩ : a = s ∧ l = l2 ++ t :: l3 := by
          simpa using hsplit
        refine List.mem_append.mpr (Or.inl (List.mem_map.mpr ⟨t, ?_, rfl⟩))
        exact List.mem_filter.mpr ⟨by rw [hl]; simp, hsc⟩
      | cons b l1 =>
        obtain ⟨rfl, hl⟩ : a = b ∧ l = l1 ++ s :: l2 ++ t :: l3 := by
          simpa using hsplit
        exact List.mem_append.mpr (Or.inr ((mem_colliderPairs l s t).mpr ⟨⟨l1, l2, l3, hl⟩, hsc⟩))

/-! ### Fixed-entity pinning machinery -/

lemma mem_mapSet {α : Type} {m : List (String × α)} {k : String} {v : α}
    {q : String × α} (h : q ∈ mapSet m k v) : q ∈ m ∨ q = (k, v) := by
  unfold mapSet at h
  split at h
  · rcases List.mem_map.mp h with ⟨p, hp, hq⟩
    by_cases hk : (p.1 == k) = true
    · right
      rw [← hq, if_pos hk]
    · left
      rw [← hq, if_neg hk]
      exact hp
  · rcases List.mem_append.mp h with hm | hs
    · exact Or.inl hm
    · exact Or.inr (List.mem_singleton.mp hs)

lemma getSprite_mem {st : SceneState} {k : String} {s : Sprite}
    (h : getSprite st k = some s) : ∃ q ∈ st.objectSprites, q.2 = s := by
  unfold getSprite mapGet at h
  cases hf : st.objectSprites.find? (fun p => p.1 == k) with
  | none => rw [hf] at h; simp at h
  | some q =>
    rw [hf] at h
    exact ⟨q, List.mem_of_find?_eq_some hf, by simpa using h⟩

lemma applyControls_x (inp : InputTick) (params : Params) (s : Sprite) :
    (applyControls inp params s).x = s.x := rfl

lemma applyControls_y (inp : InputTick) (params : Params) (s : Sprite) :
    (applyControls inp params s).y = s.y := rfl

lemma applyControls_isFixed (inp : InputTick) (params : Params) (s : Sprite) :
    (applyControls inp params s).isFixed = s.isFixed := rfl

lemma applyControls_fixedX (inp : InputTick) (params : Params) (s : Sprite) :
    (applyControls inp params s).fixedX = s.fixedX := rfl

lemma applyControls_fixedY (inp : InputTick) (params : Params) (s : Sprite) :
    (applyControls inp params s).fixedY = s.fixedY := rfl

/-- The pinned-position property the fixed re-pin step establishes. -/
def Pinned (s : Sprite) : Prop :=
  s.isFixed = true → s.x = (s.fixedX : ℝ) ∧ s.y = (s.fixedY : ℝ)

lemma pinned_applyControls (inp : InputTick) (params : Params) {s : Sprite}
    (h : Pinned s) : Pinned (applyControls inp params s) := by
  intro hfix
  rw [applyControls_x, applyControls_y, applyControls_fixedX, applyControls_fixedY]
  exact h (by rw [← applyControls_isFixed inp params s]; exact hfix)

lemma pinned_controlStepOne (inp : InputTick) (acc : SceneState) (co : String × Params)
    (h : ∀ p ∈ acc.objectSprites, Pinned p.2) :
    ∀ p ∈ (controlStepOne inp acc co).objectSprites, Pinned p.2 := by
  intro p hp
  unfold controlStepOne at hp
  cases hg : getSprite acc co.1 with
  | none => rw [hg] at hp; exact h p hp
  | some s =>
    rw [hg] at hp
    rcases mem_mapSet hp with hmem | rfl
    · exact h p hmem
    · obtain ⟨q, hq, hq2⟩ := getSprite_mem hg
      exact pinned_applyControls inp co.2 (hq2 ▸ h q hq)

lemma pinned_foldControls (inp : InputTick) :
    ∀ (l : List (String × Params)) (st : SceneState),
      (∀ p ∈ st.objectSprites, Pinned p.2) →
      ∀ p ∈ (l.foldl (controlStepOne inp) st).objectSprites, Pinned p.2 := by
  intro l
  induction l with
  | nil => intro st h; exact h
  | cons co l ih =>
    intro st h
    rw [List.foldl_cons]
    exact ih _ (pinned_controlStepOne inp st co h)

lemma pinned_fixedStep (st : SceneState) :
    ∀ p ∈ (fixedStep st).objectSprites, Pinned p.2 := by
  intro p hp
  unfold fixedStep at hp
  rcases List.mem_map.mp hp with ⟨q, hq, hpq⟩
  rw [← hpq]
  intro hfix
  dsimp only at hfix ⊢
  by_cases hb : q.2.isFixed = true
  · rw [if_pos hb]
    exact ⟨rfl, rfl⟩
  · rw [if_neg hb] at hfix
    exact absurd hfix hb

/-- C9: a Fixed entity is pinned.  At scene construction, an object whose
first fixed-typed behavior is enabled gets `isFixed` with
`fixedX`/`fixedY` equal to the configured `(screenX, screenY)`; and in every
tick, whatever state the tick starts from (so regardless of any force or
physics displacement), after `update()` — whose fixed re-pin step runs after
the force-field step and whose controls step writes only velocities — every
`isFixed` sprite sits exactly at `(fixedX, fixedY)`. -/
theorem fixed_entity_pinned :
    (∀ (obj : GameObject) (fb : GameBehavior),
      obj.behaviors.find? (fun b => b.type == BehaviorType.fixed) = some fb →
      fb.params.enabled = true →
      (builtSprite obj).isFixed = true ∧ (builtSprite obj).fixedX = fb.params.screenX ∧
        (builtSprite obj).fixedY = fb.params.screenY) ∧
    (∀ (inp : InputTick) (st : SceneState), ∀ p ∈ (update inp st).objectSprites,
      p.2.isFixed = true → p.2.x = (p.2.fixedX : ℝ) ∧ p.2.y = (p.2.fixedY : ℝ)) := by
  constructor
  · intro obj fb hfb hen
    unfold builtSprite applyFixedSetup
    rw [hfb]
    dsimp only
    rw [if_pos hen]
    exact ⟨rfl, rfl, rfl⟩
  · intro inp st p hp
    exact pinned_foldControls inp _ _ (pinned_fixedStep (forceStep (labelStep st))) p hp

/-- Witness for the C9 theorem: the object pinned at (40, 50) is built with
`isFixed` and, after an `update()` of its scene, its sprite sits at the cast
of (40, 50). -/
theorem fixed_entity_pinned_witness :
    (builtSprite objFixed).isFixed = true ∧
    (builtSprite objFixed).fixedX = 40 ∧ (builtSprite objFixed).fixedY = 50 ∧
    ("f", spriteFixedAfter) ∈ (update inpNone (buildScene [objFixed])).objectSprites ∧
    spriteFixedAfter.x = ((40:ℚ):ℝ) ∧ spriteFixedAfter.y = ((50:ℚ):ℝ) := by
  obtain ⟨h1, h2, h3⟩ := fixed_entity_pinned.1 objFixed
    ⟨BehaviorType.fixed, { enabled := true, screenX := 40, screenY := 50 }⟩ rfl rfl
  have hmem : ("f", spriteFixedAfter) ∈ (update inpNone (buildScene [objFixed])).objectSprites :=
    show ("f", spriteFixedAfter) ∈ [("f", spriteFixedAfter)] from List.mem_singleton_self _
  have h4 := fixed_entity_pinned.2 inpNone (buildScene [objFixed]) ("f", spriteFixedAfter)
    hmem rfl
  exact ⟨h1, h2, h3, hmem, h4.1, h4.2⟩

/-- C7: when `allowVerticalMovement` is unset the mode defaults to top-down:
pressing up sets the vertical velocity to `-moveSpeed`, otherwise pressing
down sets it to `+moveSpeed`, otherwise it is set to 0 — the resulting
velocity mentions neither `jumpPower` nor the ground-contact flags, so no
jump impulse or ground check is involved. -/
theorem topdown_default_vertical (inp : InputTick) (params : Params) (s : Sprite)
    (h : params.allowVerticalMovement = none) :
    (applyControls inp params s).body.velY =
      (if inp.cursorsUp || inp.wasdUp || inp.vcUp then -(params.moveSpeed : ℝ)
       else if inp.cursorsDown || inp.wasdDown || inp.vcDown then (params.moveSpeed : ℝ)
       else 0) := by
  unfold applyControls
  simp only [h, show ((none : Option Bool) == some false) = false from rfl, Bool.not_false,
    eq_self_iff_true, if_true]
  split_ifs <;> rfl

/-- Witness for the C7 theorem: with `allowVerticalMovement` unset and the
up arrow held, the vertical velocity is `-5`, not a jump impulse. -/
theorem topdown_default_vertical_witness :
    paramsTopDown.allowVerticalMovement = none ∧
    (applyControls inpUp paramsTopDown (builtSprite objPlainA)).body.velY = -((5:ℚ):ℝ) := by
  refine ⟨rfl, ?_⟩
  rw [topdown_default_vertical inpUp paramsTopDown (builtSprite objPlainA) rfl]
  norm_num [inpUp, paramsTopDown]

/-- C8 counterexample: with the key history "press, release, press" over
three ticks of one continuously airborne stretch (ground-contact flags false
throughout), the edge-triggered double jump fires at tick 0 AND again at
tick 2 — it does not fire just once while the entity is airborne. -/
theorem double_jump_refire_counterexample :
    justDownAt pressTwiceHist 0 = true ∧ justDownAt pressTwiceHist 1 = false ∧
    justDownAt pressTwiceHist 2 = true ∧
    spriteAirA.body.touchingDown = false ∧ spriteAirA.body.blockedDown = false ∧
    spriteAirB.body.touchingDown = false ∧ spriteAirB.body.blockedDown = false ∧
    spriteAirA.body.velY ≠ -((10:ℚ):ℝ) * 0.8 ∧ spriteAirB.body.velY ≠ -((10:ℚ):ℝ) * 0.8 ∧
    (applyControls inpTick0 paramsDJ spriteAirA).body.velY = -((10:ℚ):ℝ) * 0.8 ∧
    (applyControls inpTick2 paramsDJ spriteAirB).body.velY = -((10:ℚ):ℝ) * 0.8 := by
  refine ⟨rfl, rfl, rfl, rfl, rfl, rfl, rfl, ?_, ?_, rfl, rfl⟩
  · show (3:ℝ) ≠ -((10:ℚ):ℝ) * 0.8
    push_cast
    norm_num
  · show (7:ℝ) ≠ -((10:ℚ):ℝ) * 0.8
    push_cast
    norm_num

/-- C8 (amended): in platformer mode with `canDoubleJump`, the double jump
fires on each edge-triggered keyboard arrow-up press while airborne — at
most once per continuous key hold (the edge flag is false while the key
stays down), but possibly more than once per airborne period; and it is
keyboard-only: without the keyboard edge flag, no input (in particular no
virtual-controller jump press) changes the airborne vertical velocity. -/
theorem double_jump_edge_keyboard_only :
    (∀ (inp : InputTick) (params : Params) (s : Sprite),
      params.allowVerticalMovement = some false → params.canDoubleJump = true →
      s.body.touchingDown = false → s.body.blockedDown = false →
      inp.cursorsUpJustDown = true →
      (applyControls inp params s).body.velY = -(params.jumpPower : ℝ) * 0.8) ∧
    (∀ (keyDown : ℕ → Bool) (n : ℕ), keyDown n = true → keyDown (n + 1) = true →
      justDownAt keyDown (n + 1) = false) ∧
    (∀ (inp : InputTick) (params : Params) (s : Sprite),
      params.allowVerticalMovement = some false →
      s.body.touchingDown = false → s.body.blockedDown = false →
      inp.cursorsUpJustDown = false →
      (applyControls inp params s).body.velY = s.body.velY) := by
  refine ⟨?_, ?_, ?_⟩
  · intro inp params s hav hdj ht hb hjd
    unfold applyControls
    simp only [hav, hdj, ht, hb, hjd,
      show ((some false : Option Bool) == some false) = true from rfl, Bool.not_true,
      Bool.false_eq_true, if_false, Bool.or_self, Bool.and_false, Bool.and_true,
      Bool.true_and, Bool.not_false, eq_self_iff_true, if_true]
    split_ifs <;> first | rfl | simp_all
  · intro keyDown n h1 h2
    simp [justDownAt, h1, h2]
  · intro inp params s hav ht hb hjd
    unfold applyControls
    simp only [hav, ht, hb, hjd,
      show ((some false : Option Bool) == some false) = true from rfl, Bool.not_true,
      Bool.false_eq_true, if_false, Bool.or_self, Bool.and_false, Bool.and_true,
      Bool.true_and, Bool.not_false, eq_self_iff_true, if_true]
    split_ifs <;> first | rfl | simp_all

/-- Witness for the C8 theorem: the airborne double jumper with jumpPower 10
gets vertical velocity -8 on a fresh keyboard press, and an unchanged
vertical velocity (3) when only the virtual-controller jump is pressed. -/
theorem double_jump_edge_keyboard_only_witness :
    paramsDJ.allowVerticalMovement = some false ∧ paramsDJ.canDoubleJump = true ∧
    (applyControls inpUpEdge paramsDJ spriteAirA).body.velY = -((10:ℚ):ℝ) * 0.8 ∧
    (applyControls inpVJump paramsDJ spriteAirA).body.velY = (3:ℝ) := by
  refine ⟨rfl, rfl, ?_, ?_⟩
  · exact double_jump_edge_keyboard_only.1 inpUpEdge paramsDJ spriteAirA rfl rfl rfl rfl rfl
  · exact double_jump_edge_keyboard_only.2.2 inpVJump paramsDJ spriteAirA rfl rfl rfl rfl

/-- C2 (amended): for a non-boundary object with an enabled Physics
behavior, the configured vertical gravity is `gravityScale × 300` (with an
unset or zero `gravityScale` read as 0) exactly when the object's first
Controls behavior sets `allowVerticalMovement` explicitly to false — the
`enabled` flag of that Controls behavior is never consulted; in every other
case (vertical movement allowed, parameter unset, or no Controls behavior at
all) the configured vertical gravity is 0. -/
theorem gravity_config_amended (obj : GameObject) (pb : GameBehavior)
    (hb : obj.type ≠ ObjType.boundary) (hc : obj.type ≠ ObjType.controller)
    (hp : obj.behaviors.find? (fun b => b.type == BehaviorType.physics) = some pb)
    (he : pb.params.enabled = true) :
    ((obj.behaviors.find? (fun b => b.type == BehaviorType.controls)).bind
        (fun b => b.params.allowVerticalMovement) = some false →
      (builtSprite obj).body.gravityY = ((jsOrQ pb.params.gravityScale 0 * 300 : ℚ) : ℝ)) ∧
    ((obj.behaviors.find? (fun b => b.type == BehaviorType.controls)).bind
        (fun b => b.params.allowVerticalMovement) ≠ some false →
      (builtSprite obj).body.gravityY = 0) := by
  have hkey : (builtSprite obj).body.gravityY =
      (((if !((obj.behaviors.find? (fun b => b.type == BehaviorType.controls)).bind
            (fun b => b.params.allowVerticalMovement) == some false) then (0:ℚ)
         else jsOrQ pb.params.gravityScale 0) * 300 : ℚ) : ℝ) := by
    unfold builtSprite
    rw [applyFixedSetup_body, applyObliqueSetup_gravityY,
        applyPhysicsSetup_gravityY _ _ pb hb hp he]
  constructor
  · intro hv
    rw [hkey, hv]
    norm_num
  · intro hv
    have hbeq : ((obj.behaviors.find? (fun b => b.type == BehaviorType.controls)).bind
        (fun b => b.params.allowVerticalMovement) == some false) = false :=
      beq_eq_false_iff_ne.mpr hv
    rw [hkey, hbeq]
    norm_num

/-- C2 counterexample: a player with an enabled Physics behavior, authored
`gravityScale` 2 and no Controls behavior at all gets configured vertical
gravity 0, not the claimed `gravityScale × 300 = 600`: the
`allowVerticalMovement !== false` read is true when no Controls behavior
exists, which zeroes the gravity scale. -/
theorem gravity_no_controls_counterexample :
    objNoControls.behaviors.find? (fun b => b.type == BehaviorType.controls) = none ∧
    (∃ pb, objNoControls.behaviors.find? (fun b => b.type == BehaviorType.physics) = some pb ∧
      pb.params.enabled = true ∧ pb.params.gravityScale = some 2) ∧
    (builtSprite objNoControls).body.gravityY = 0 ∧ ((2 * 300 : ℚ) : ℝ) ≠ 0 := by
  refine ⟨rfl, ⟨_, rfl, rfl, rfl⟩, ?_, by push_cast; norm_num⟩
  show (((0 : ℚ) * 300 : ℚ) : ℝ) = 0
  push_cast
  norm_num

/-- Witness for the C2 theorem: with Controls explicitly disabling vertical
movement, gravity is `2 × 300 = 600`; without any Controls behavior it is 0. -/
theorem gravity_config_amended_witness :
    (builtSprite objPlatformer).body.gravityY = ((600:ℚ):ℝ) ∧
    (builtSprite objNoControls).body.gravityY = 0 := by
  constructor
  · have h := (gravity_config_amended objPlatformer
      ⟨BehaviorType.physics, { enabled := true, gravityScale := some 2 }⟩
      (by decide) (by decide) rfl rfl).1 rfl
    rw [h]
    norm_num [jsOrQ]
  · exact (gravity_config_amended objNoControls
      ⟨BehaviorType.physics, { enabled := true, gravityScale := some 2 }⟩
      (by decide) (by decide) rfl rfl).2 (by decide)

/-- C10: scene construction makes every boundary's body immovable, disables
gravity on it and disables world-bounds collision, and skips the
Physics-behavior branch entirely: mass, bounce, friction and gravity stay at
the Arcade body defaults, and the resulting body is identical to the one
built with every physics-typed behavior removed from the object. -/
theorem boundary_ignores_physics (obj : GameObject) (hb : obj.type = ObjType.boundary) :
    (builtSprite obj).body.immovable = true ∧
    (builtSprite obj).body.allowGravity = false ∧
    (builtSprite obj).body.collideWorldBounds = false ∧
    (builtSprite obj).body.mass = 1 ∧
    (builtSprite obj).body.bounceX = 0 ∧ (builtSprite obj).body.bounceY = 0 ∧
    (builtSprite obj).body.frictionX = 1 ∧ (builtSprite obj).body.frictionY = 0 ∧
    (builtSprite obj).body.gravityY = 0 ∧
    (builtSprite obj).body = (builtSprite (removePhysicsBehaviors obj)).body := by
  have hgb : (applyGravityZoneSetup obj (mkSprite obj)).body = {} := by
    unfold applyGravityZoneSetup mkSprite
    rw [hb, if_neg (show ¬(ObjType.boundary = ObjType.gravity) by decide), if_pos rfl]
  have hphys : (applyPhysicsSetup obj (applyGravityZoneSetup obj (mkSprite obj))).body =
      { immovable := true, allowGravity := false, collideWorldBounds := false } := by
    rw [applyPhysicsSetup_boundary obj _ hb]
    show { (applyGravityZoneSetup obj (mkSprite obj)).body with
            immovable := true, allowGravity := false, collideWorldBounds := false } = _
    rw [hgb]
  have hbody : ∀ (o : GameObject), o.type = ObjType.boundary →
      o.behaviors.find? (fun b => b.type == BehaviorType.oblique) =
        obj.behaviors.find? (fun b => b.type == BehaviorType.oblique) →
      ∃ im ag, (builtSprite o).body =
        { immovable := im, allowGravity := ag, collideWorldBounds := false } ∧
        im = true ∧ ag = false := by
    intro o ho hfo
    have hgb' : (applyGravityZoneSetup o (mkSprite o)).body = {} := by
      unfold applyGravityZoneSetup mkSprite
      rw [ho, if_neg (show ¬(ObjType.boundary = ObjType.gravity) by decide), if_pos rfl]
    have hphys' : (applyPhysicsSetup o (applyGravityZoneSetup o (mkSprite o))).body =
        { immovable := true, allowGravity := false, collideWorldBounds := false } := by
      rw [applyPhysicsSetup_boundary o _ ho]
      show { (applyGravityZoneSetup o (mkSprite o)).body with
              immovable := true, allowGravity := false, collideWorldBounds := false } = _
      rw [hgb']
    obtain ⟨im, ag, hob, him, hag⟩ :=
      applyObliqueSetup_body o (applyPhysicsSetup o (applyGravityZoneSetup o (mkSprite o)))
    refine ⟨im, ag, ?_, him (by rw [hphys']), hag (by rw [hphys'])⟩
    show (applyFixedSetup o (applyObliqueSetup o _)).body = _
    rw [applyFixedSetup_body, hob, hphys']
  obtain ⟨im, ag, hB, him, hag⟩ := hbody obj hb rfl
  obtain ⟨im', ag', hB', him', hag'⟩ := hbody (removePhysicsBehaviors obj) hb (by
    show (obj.behaviors.filter (fun b => !(b.type == BehaviorType.physics))).find?
        (fun b => b.type == BehaviorType.oblique) = _
    refine find?_filter_keep _ _ _ ?_
    intro a ha
    have : a.type = BehaviorType.oblique := by simpa using ha
    simp [this])
  subst him
  subst hag
  subst him'
  subst hag'
  refine ⟨by rw [hB], by rw [hB], by rw [hB], by rw [hB], by rw [hB], by rw [hB],
          by rw [hB], by rw [hB], by rw [hB], by rw [hB, hB']⟩

/-- Witness for the C10 theorem: the boundary carrying an enabled Physics
behavior with mass 7, bounce 2, friction 3 and gravityScale 5 nevertheless
has the default mass 1, bounce 0 and gravity 0 on its immovable body. -/
theorem boundary_ignores_physics_witness :
    (builtSprite objBoundaryPhys).body.immovable = true ∧
    (builtSprite objBoundaryPhys).body.mass = 1 ∧
    (builtSprite objBoundaryPhys).body.gravityY = 0 ∧
    (builtSprite objBoundaryPhys).body.bounceX = 0 := by
  obtain ⟨h1, _, _, h4, h5, _, _, _, h9, _⟩ := boundary_ignores_physics objBoundaryPhys rfl
  exact ⟨h1, h4, h9, h5⟩

/-- C3: for every pair considered by the collision builder, a collider is
created exactly according to the four-rule table: `shouldCollide` agrees
with the spec's table (`specCollide`) on all sprites, and a pair receives a
collider iff it is an ordered pair of the builder's sprite list and
`shouldCollide` holds, so the table governs collider creation exactly. -/
theorem collision_table_correct :
    (∀ s1 s2 : Sprite, shouldCollide s1 s2 = specCollide s1 s2) ∧
    (∀ (l : List Sprite) (s t : Sprite),
      (s, t) ∈ colliderPairs l ↔
        ((∃ l1 l2 l3, l = l1 ++ s :: l2 ++ t :: l3) ∧ shouldCollide s t = true)) := by
  constructor
  · intro s1 s2
    simp only [shouldCollide, specCollide]
    cases h1 : s1.hasOblique <;> cases h2 : s2.hasOblique <;>
      cases h3 : s1.onlyCollideWithOblique <;> cases h4 : s2.onlyCollideWithOblique <;>
        simp <;> cases h5 : s1.obliqueGroup == s2.obliqueGroup <;> simp_all [bne]
  · exact mem_colliderPairs

end PhaserGame
